import Mathlib

/-!
Shallow embedding of the LDS research-and-verification core.

The embedding models the Python sources `framework/fanout.py`,
`verification/tools.py`, `verification/schemas.py`, `llm/structured_json.py`
and `verification/agent.py`.  Conventions used throughout:

* Python exceptions are modelled by the explicit error type `PyErr`; a
  Python function that may raise becomes a Lean function into
  `Except PyErr _`, and a `try/except` block becomes a `match` on that
  result.  A function whose Lean type has no `Except` provably never
  raises.
* Python floats are modelled as exact rationals (`ℚ`).  Every numeric
  literal involved (0.6, 0.65, 0.7, 1.5, ...) is compared against counts
  with denominator at most 8, far from any double-rounding boundary.
* `asyncio` scheduling is modelled explicitly: each task of a fan-out
  writes its value into its own result slot, and the scheduler's
  completion order is an explicit `order` argument (a list of slot
  indices).  Sleeps and HTTP attempts are recorded as trace events where
  a claim talks about them.
* Python `None` inside a result list is modelled with `Option`.
-/

/-- Python exception value, tagged by the class information the handlers
in this code base actually dispatch on. -/
inductive PyErr where
  | importError (msg : String)
  | valueError (msg : String)
  | statusError (code : Nat) (msg : String)
  | other (msg : String)
deriving Repr, DecidableEq

/-- Model of Python `str(e)` for the exception renderings used in
diagnostic strings. -/
def PyErr.str : PyErr → String
  | .importError m => m
  | .valueError m => m
  | .statusError _ m => m
  | .other m => m

/-- `verification/schemas.py`: one research finding from a sub-agent tool
(`SubAgentFinding`). -/
structure SubAgentFinding where
  source : String
  url : Option String := none
  finding : String
  supports_eligibility : Option Bool := none
  is_error : Bool := false
  error_detail : Option String := none
deriving Repr, DecidableEq

/-- `verification/schemas.py`: final verdict from the verification agent
for a business × settlement candidate (`VerificationResult`).
`confidence` is a Python `int`: the schema declares no range constraint. -/
structure VerificationResult where
  verdict : String
  confidence : Int := 50
  is_chain : Bool := false
  chain_reason : Option String := none
  evidence : List SubAgentFinding := []
  reasoning : String := ""
  checks_performed : List String := []
deriving Repr, DecidableEq

/-! ### framework/fanout.py

`gather_with_limit` (lines 13-29) allocates `results = [None] * N`, runs
each awaitable under a semaphore, and on completion stores
`results[idx] = await aw`; finally it returns
`[r for r in results if r is not None]`.  The semaphore bounds how many
tasks are simultaneously in flight but has no effect on which slot a
task writes, so the memory behaviour is fully described by the
completion order of the tasks.  `fanoutRun` replays the slot writes in an
arbitrary completion order; `asyncio.gather` re-raises the first
exception raised by any task (`fanoutFirstErr`). -/

/-- The value task `k` writes into its slot: the awaitable's returned
value (possibly Python `None`); irrelevant for a task that raised. -/
def taskVal {α : Type} (awaitables : List (Except PyErr (Option α))) (k : ℕ) : Option α :=
  match awaitables[k]? with
  | some (.ok v) => v
  | _ => none

/-- Slot writes `results[idx] = await aw` of `gather_with_limit`,
replayed in the scheduler's completion order (a list of slot indices). -/
def fanoutRun {α : Type} (awaitables : List (Except PyErr (Option α)))
    (order : List ℕ) : List (Option α) :=
  order.foldl (fun acc k => acc.set k (taskVal awaitables k))
    (List.replicate awaitables.length none)

/-- First exception raised by any task, in completion order
(`asyncio.gather` propagates it). -/
def fanoutFirstErr {α : Type} (awaitables : List (Except PyErr (Option α))) :
    List ℕ → Option PyErr
  | [] => none
  | k :: rest =>
    match awaitables[k]? with
    | some (.error e) => some e
    | _ => fanoutFirstErr awaitables rest

/-- `framework/fanout.py` lines 13-29: run awaitables with an upper bound
on in-flight tasks.  `order` is the completion order chosen by the
scheduler (each live task index appears there once).  Each awaitable's
eventual value is `Except` (it may raise) of `Option` (a Python
coroutine may legitimately return `None`). -/
def gather_with_limit {α : Type} (awaitables : List (Except PyErr (Option α)))
    (order : List ℕ) (concurrency : Int) : Except PyErr (List α) :=
  if concurrency < 1 then .error (.valueError "concurrency must be >= 1")
  else
    match fanoutFirstErr awaitables order with
    | some e => .error e
    | none => .ok ((fanoutRun awaitables order).filterMap id)

/-- `framework/fanout.py` lines 32-55: run `worker(item)` across items
with bounded concurrency and an optional delay.  Slot `idx` receives
`worker(items[idx])`; the delay only affects timing, never values, so it
is carried but unused. -/
def map_with_limit {α β : Type} (items : List β) (worker : β → Except PyErr (Option α))
    (order : List ℕ) (concurrency : Int) (delay_s : ℚ) :
    Except PyErr (List α) :=
  if concurrency < 1 then .error (.valueError "concurrency must be >= 1")
  else
    match fanoutFirstErr (items.map worker) order with
    | some e => .error e
    | none => .ok ((fanoutRun (items.map worker) order).filterMap id)

/-! ### verification/tools.py : pure text helpers

Python regular-expression operations are modelled by explicit scanners on
`List Char`.  Lowercasing (`str.lower`) is modelled by `Char.toLower`,
and `\s` / `\w` by their ASCII fragments — all call sites in this code
base operate on ASCII-range data. -/

/-- Single-quote character (used verbatim inside diagnostic strings). -/
def sqc : String := String.singleton (Char.ofNat 39)

/-- Python `s.split()`: the whitespace-separated words of `s`, empties
dropped (`cur` accumulates the current word in reverse). -/
def pyWordsAux (cur : List Char) : List Char → List (List Char)
  | [] => if cur.isEmpty then [] else [cur.reverse]
  | c :: rest =>
    if c.isWhitespace then
      if cur.isEmpty then pyWordsAux [] rest
      else cur.reverse :: pyWordsAux [] rest
    else pyWordsAux (c :: cur) rest

/-- Python `re.sub(r"\s+", " ", s).strip()`, i.e. `" ".join(s.split())`,
on character lists. -/
def pyCollapseChars (s : List Char) : List Char :=
  ((pyWordsAux [] s).intersperse [' ']).flatten

/-- Python `re.sub(r"\s+", " ", s).strip()`, i.e. `" ".join(s.split())`. -/
def pyCollapseWs (s : String) : String :=
  String.mk (pyCollapseChars s.toList)

/-- Is `pat` a case-insensitive prefix of `s` (the `re.I` flag)? -/
def lowerIsPrefix (pat s : List Char) : Bool :=
  (pat.map Char.toLower).isPrefixOf (s.map Char.toLower)

/-- Suffix of `s` strictly after the first case-insensitive occurrence of
`pat`, if any (the non-greedy `.*?pat` step of the block regexes). -/
def dropThroughClose (pat : List Char) : List Char → Option (List Char)
  | [] => none
  | c :: rest =>
    if lowerIsPrefix pat (c :: rest) then some ((c :: rest).drop pat.length)
    else dropThroughClose pat rest

/-- Given `s` starting at a candidate match position, consume
`openT[^>]*>` case-insensitively and return the remaining suffix. -/
def afterOpenTag (openT : List Char) (s : List Char) : Option (List Char) :=
  if lowerIsPrefix openT s then
    match (s.drop openT.length).dropWhile (fun c => c != '>') with
    | [] => none
    | _ :: tail => some tail
  else none

/-- One left-to-right pass of `re.sub(rf"{openT}[^>]*>.*?{closeT}", " ", s,
flags=re.S | re.I)`.  The fuel argument only bounds the recursion: every
step consumes at least one character, so `s.length` fuel is always
enough. -/
def stripBlockAux (openT closeT : List Char) : Nat → List Char → List Char
  | 0, s => s
  | _ + 1, [] => []
  | fuel + 1, c :: rest =>
    match afterOpenTag openT (c :: rest) with
    | some afterGt =>
      match dropThroughClose closeT afterGt with
      | some afterClose => ' ' :: stripBlockAux openT closeT fuel afterClose
      | none => c :: stripBlockAux openT closeT fuel rest
    | none => c :: stripBlockAux openT closeT fuel rest

/-- `re.sub(rf"{openT}[^>]*>.*?{closeT}", " ", s, flags=re.S | re.I)`. -/
def stripBlock (openT closeT : String) (s : List Char) : List Char :=
  stripBlockAux openT.toList closeT.toList s.length s

/-- One left-to-right pass of `re.sub(r"<[^>]+>", " ", s)`. -/
def stripTagsAux : Nat → List Char → List Char
  | 0, s => s
  | _ + 1, [] => []
  | fuel + 1, c :: rest =>
    if c = '<' then
      let inner := rest.takeWhile (fun d => d != '>')
      match rest.drop inner.length with
      | '>' :: tail =>
        if inner.isEmpty then c :: stripTagsAux fuel rest
        else ' ' :: stripTagsAux fuel tail
      | _ => c :: stripTagsAux fuel rest
    else c :: stripTagsAux fuel rest

/-- `verification/tools.py` lines 48-54 (`_extract_text`): strip HTML
tags and collapse whitespace, then cap the length. -/
def _extract_text (html : String) (max_chars : Nat := 4000) : String :=
  let t1 := stripBlock "<script" "</script>" html.toList
  let t2 := stripBlockAux "<style".toList "</style>".toList t1.length t1
  let t3 := stripTagsAux t2.length t2
  String.mk ((pyCollapseChars t3).take max_chars)

/-- Python substring test `pat in s`. -/
def containsSub (pat : List Char) : List Char → Bool
  | [] => pat.isEmpty
  | c :: rest => pat.isPrefixOf (c :: rest) || containsSub pat rest

/-- Python `\w` (ASCII fragment). -/
def isWordChar (c : Char) : Bool := c.isAlphanum || c = '_'

/-- Does `pat` match at the head of `s` with `\b` on both sides, given
the wordness of the character immediately before this position? -/
def matchesWordAt (prevWord : Bool) (pat : List Char) (s : List Char) : Bool :=
  match pat with
  | [] => false
  | p0 :: _ =>
    pat.isPrefixOf s && (prevWord != isWordChar p0) &&
      (match pat.getLast? with
       | none => false
       | some pl =>
         let nextWord := match s.drop pat.length with
           | [] => false
           | d :: _ => isWordChar d
         isWordChar pl != nextWord)

/-- Scanner for `re.search(rf"\b{re.escape(pat)}\b", s)`. -/
def containsWordAux (prevWord : Bool) (pat : List Char) : List Char → Bool
  | [] => false
  | c :: rest => matchesWordAt prevWord pat (c :: rest) || containsWordAux (isWordChar c) pat rest

/-- `re.search(rf"\b{re.escape(pat)}\b", s)` as a Bool (pat nonempty at
every call site). -/
def containsWord (pat text : List Char) : Bool := containsWordAux false pat text

/-- Characters kept by `re.sub(r"[^a-z0-9 ]+", " ", ...)` (applied after
lowering). -/
def keepNameChar (c : Char) : Bool :=
  (97 ≤ c.toNat && c.toNat ≤ 122) || c.isDigit || c = ' '

/-- `verification/tools.py` lines 99-100: normalised business name
(lowercase, non-alphanumerics to spaces, whitespace collapsed). -/
def cleanName (business_name : String) : String :=
  pyCollapseWs (String.mk ((business_name.toList.map Char.toLower).map
    (fun c => if keepNameChar c then c else ' ')))

/-- `verification/tools.py` lines 42-45. -/
def _TOKEN_STOPWORDS : List String :=
  ["the", "and", "for", "with", "from", "into", "your", "you", "our",
   "llc", "inc", "co", "company", "ltd", "group", "services", "service"]

/-- `verification/tools.py` lines 34-41. -/
def _OWNER_CHANGE_MARKERS : List String :=
  ["under new ownership", "new ownership", "formerly", "now known as",
   "rebranded", "acquired"]

/-- `verification/tools.py` lines 104: the kept name tokens. -/
def identityTokens (cleaned_name : String) : List String :=
  ((pyWordsAux [] cleaned_name.toList).map String.mk).filter
    (fun t => decide (4 ≤ t.length) && !(_TOKEN_STOPWORDS.contains t))

/-- `verification/tools.py` line 105: normalised full name appears
verbatim in the page text. -/
def identityPhraseHit (cleaned_name : String) (text : List Char) : Bool :=
  containsSub cleaned_name.toList text

/-- `verification/tools.py` line 106: number of kept tokens present as
whole words. -/
def identityTokenHits (tokens : List String) (text : List Char) : Nat :=
  (tokens.filter (fun t => containsWord t.toList text)).length

/-- `verification/tools.py` line 108: city appears as a whole word. -/
def identityCityHit (city : String) (text : List Char) : Bool :=
  city != "" && containsWord (city.toList.map Char.toLower) text

/-- `verification/tools.py` lines 96-119 (`_identity_score`): score
whether a historical snapshot appears to be the same business identity.
Returns the score and the owner-change signal. -/
def _identity_score (page_text business_name city : String) : ℚ × Bool :=
  let text := page_text.toList.map Char.toLower
  let cleaned_name := cleanName business_name
  if cleaned_name = "" then (0, false)
  else
    let tokens := identityTokens cleaned_name
    let phrase_hit := identityPhraseHit cleaned_name text
    let token_hits := identityTokenHits tokens text
    let tokenFrac : ℚ := (token_hits : ℚ) / ((max 1 tokens.length : ℕ) : ℚ)
    let city_hit := identityCityHit city text
    let score : ℚ :=
      (if phrase_hit then 7/10 else 6/10 * tokenFrac)
        + (if city_hit then 2/10 else 0)
        + (if 2 ≤ token_hits then 1/10 else 0)
    (min score 1, _OWNER_CHANGE_MARKERS.any (fun m => containsSub m.toList text))

/-! ### verification/tools.py : Wayback sampling and dates -/

/-- Python `range(0, stop, step)` for `step ≥ 1`. -/
def pyRange (stop step : Nat) : List Nat :=
  List.range' 0 ((stop + step - 1) / step) step

/-- `verification/tools.py` lines 89-92: the `for i in range(0, len(rows),
step)` loop over a mutable index set, with its early break once
`max_samples` distinct indices are collected. -/
def sampleLoop (max_samples : Nat) : Finset ℕ → List ℕ → Finset ℕ
  | idxs, [] => idxs
  | idxs, i :: rest =>
    let idxs2 := insert i idxs
    if max_samples ≤ idxs2.card then idxs2 else sampleLoop max_samples idxs2 rest

/-- `verification/tools.py` lines 87-92: the sampled index set for a row
count above `max_samples` (`idxs = {0, 1, min(2, len-1), len-1}` plus the
strided loop). -/
def sampleIndices (rowCount max_samples : Nat) : Finset ℕ :=
  let init : Finset ℕ := {0, 1, min 2 (rowCount - 1), rowCount - 1}
  let step := max 1 ((rowCount - 1) / (max_samples - 1))
  sampleLoop max_samples init (pyRange rowCount step)

/-- `verification/tools.py` lines 83-93 (`_sample_wayback_rows`): sample
chronological rows while preserving earliest/latest captures.  The final
comprehension indexes `rows` at each in-bounds sorted index, which is
exactly `rows[i]?` by in-bounds lookup. -/
def _sample_wayback_rows (rows : List (List String)) (max_samples : Nat := 8) :
    List (List String) :=
  if rows.length ≤ max_samples then rows
  else ((sampleIndices rows.length max_samples).sort (· ≤ ·)).filterMap (fun i => rows[i]?)

/-- Numeric value of a digit string. -/
def digitsVal (cs : List Char) : Nat :=
  cs.foldl (fun a c => 10 * a + (c.toNat - 48)) 0

/-- Gregorian leap year (Python `datetime` rule). -/
def isLeapYear (y : Nat) : Bool :=
  y % 4 = 0 && (y % 100 != 0 || y % 400 = 0)

/-- Days in a month, as validated by the `datetime` constructor. -/
def daysInMonth (y m : Nat) : Nat :=
  if m = 2 then (if isLeapYear y then 29 else 28)
  else if [4, 6, 9, 11].contains m then 30
  else 31

/-- `verification/tools.py` lines 73-80 (`_wayback_iso_date`): convert a
Wayback timestamp `YYYYMMDDhhmmss` to an ISO date, `none` when
`datetime.strptime` would raise `ValueError`.  `%Y%m%d%H%M%S` is modelled
as the fixed 4-2-2-2-2-2 digit split with `datetime`'s range checks. -/
def _wayback_iso_date (timestamp : String) : Option String :=
  if timestamp = "" then none
  else
    let t := timestamp.toList.take 14
    if t.length = 14 && t.all Char.isDigit then
      let y := digitsVal (t.take 4)
      let mo := digitsVal ((t.drop 4).take 2)
      let d := digitsVal ((t.drop 6).take 2)
      let hh := digitsVal ((t.drop 8).take 2)
      let mi := digitsVal ((t.drop 10).take 2)
      let ss := digitsVal ((t.drop 12).take 2)
      if 1 ≤ y && 1 ≤ mo && mo ≤ 12 && 1 ≤ d && d ≤ daysInMonth y mo
          && hh ≤ 23 && mi ≤ 59 && ss ≤ 59 then
        some (String.mk (t.take 4) ++ "-" ++ String.mk ((t.drop 4).take 2)
          ++ "-" ++ String.mk ((t.drop 6).take 2))
      else none
    else none

/-- `verification/tools.py` lines 57-70 (`_domain_from_website`):
normalise a website URL to a bare host.  `urlparse(url).netloc` is
modelled as the text between the first `://` and the next `/`, `?` or
`#`; the defensive `except` around `urlparse` is unreachable in this
model, matching its role in the source. -/
def _domain_from_website (website_url : String) : String :=
  let url := String.mk
    (((website_url.toList.dropWhile Char.isWhitespace).reverse.dropWhile
      Char.isWhitespace).reverse)
  if url = "" then ""
  else
    let url2 := if containsSub "://".toList url.toList then url else "https://" ++ url
    let after := (dropThroughClose "://".toList url2.toList).getD []
    let host0 := after.takeWhile (fun c => c != '/' && c != '?' && c != '#')
    let host := host0.map Char.toLower
    if "www.".toList.isPrefixOf host then String.mk (host.drop 4) else String.mk host

/-- `verification/tools.py` line 371: one entry of `sampled_results`. -/
structure SampleRec where
  date : String
  url : String
  score : ℚ
  owner_change : Bool
  matched : Bool
deriving Repr, DecidableEq

/-- Python string comparison is lexicographic on code points: compare
the character lists (Mathlib's lexicographic order on `List Char`). -/
def dateLe (a b : SampleRec) : Prop := a.date.toList ≤ b.date.toList

instance : DecidableRel dateLe := fun a b => by
  unfold dateLe
  infer_instance

instance : IsTotal SampleRec dateLe := ⟨fun a b => le_total a.date.toList b.date.toList⟩

instance : IsTrans SampleRec dateLe := ⟨fun _ _ _ => le_trans⟩

/-- `verification/tools.py` line 382: the stable chronological sort
`sampled_results.sort(key=lambda r: r["date"])` (a stable insertion sort
is extensionally the same list as Python's stable sort). -/
def sortByDate (l : List SampleRec) : List SampleRec :=
  l.insertionSort dateLe

def _WAYBACK_CDX_URL : String := "https://web.archive.org/cdx/search/cdx"

def _WAYBACK_VIEW_BASE : String := "https://web.archive.org/web"

/-- Rendering of the `f"...{continuity:.2f}..."` interpolation; the
2-decimal formatting itself is abbreviated to the exact rational. -/
def fmtQ (q : ℚ) : String := toString q

/-- `verification/tools.py` line 396: `post_match`, the sorted samples
dated at or after the first match. -/
def wayback_post_match (first_match : SampleRec) (srt : List SampleRec) : List SampleRec :=
  srt.filter (fun r => decide (dateLe first_match r))

/-- `verification/tools.py` line 397: the continuity ratio over
`post_match` (0.0 when it is empty). -/
def wayback_continuity (first_match : SampleRec) (srt : List SampleRec) : ℚ :=
  if (wayback_post_match first_match srt).isEmpty then 0
  else ((wayback_post_match first_match srt).filter (fun r => r.matched)).length
    / ((wayback_post_match first_match srt).length : ℚ)

/-- `verification/tools.py` lines 401-405: the caution sentence(s). -/
def wayback_caution (first_match : SampleRec) (srt : List SampleRec) : String :=
  (if 0 < (srt.filter
        (fun r => decide (r.date.toList < first_match.date.toList) && !r.matched)).length
   then " Earlier captures did not match current identity." else "")
    ++ (if 0 < (srt.filter (fun r => r.owner_change)).length
        then " Ownership-change wording appears in sampled archives." else "")

/-- `verification/tools.py` lines 382-416: the verdict built from the
chronologically sorted `sampled_results` once at least zero matches are
known (the `matches`/`first_match` logic and the final return). -/
def wayback_verdict_core (domain earliest_capture_iso : String)
    (srt : List SampleRec) : SubAgentFinding :=
  match srt.filter (fun r => r.matched) with
  | [] =>
    { source := "wayback_archive", url := some (_WAYBACK_VIEW_BASE ++ "/*/" ++ domain),
      finding := s!"Wayback captures exist for {domain} since {earliest_capture_iso}, but no sampled snapshot confidently matched the current business identity (possible domain reuse/owner change).",
      supports_eligibility := none }
  | first_match :: _ =>
    let fmDate := first_match.date
    let contStr := fmtQ (wayback_continuity first_match srt)
    let nPost := (wayback_post_match first_match srt).length
    let caution := wayback_caution first_match srt
    { source := "wayback_archive", url := some first_match.url,
      finding := s!"Wayback domain capture begins {earliest_capture_iso}. Earliest matching business identity capture: {fmDate}. Continuity score: {contStr} across {nPost} sampled snapshots from {domain}.{caution}",
      supports_eligibility :=
        if wayback_continuity first_match srt ≥ 3/5 then some true else none }

/-- `verification/tools.py` lines 374-416: the verdict built from
`sampled_results` (factored out of `check_wayback_history`; everything
from the `if not sampled_results` guard to the final return). -/
def wayback_identity_verdict (domain earliest_capture_iso : String)
    (sampled_results : List SampleRec) : SubAgentFinding :=
  if sampled_results.isEmpty then
    { source := "wayback_archive", url := some (_WAYBACK_VIEW_BASE ++ "/*/" ++ domain),
      finding := s!"Wayback has captures for {domain} since {earliest_capture_iso}, but sampled snapshots were not parseable.",
      supports_eligibility := none }
  else wayback_verdict_core domain earliest_capture_iso (sortByDate sampled_results)

/-! ### verification/tools.py : probes

Network effects are supplied by environments: `check_business_website`
takes the per-attempt HTTP outcome, the search probes take a DuckDuckGo
environment, `check_wayback_history` a CDX/snapshot environment. -/

/-- `verification/tools.py` lines 13-28: a header set (User-Agent and
Accept). -/
structure HttpHeaders where
  userAgent : String
  accept : String
deriving Repr, DecidableEq

def _HEADERS : HttpHeaders :=
  { userAgent := "Mozilla/5.0 (Macintosh; Intel Mac OS X 10_15_7) AppleWebKit/537.36 (KHTML, like Gecko) Chrome/120.0.0.0 Safari/537.36",
    accept := "text/html,application/xhtml+xml,application/xml;q=0.9,*/*;q=0.8" }

def _ALT_HEADERS : HttpHeaders :=
  { userAgent := "Mozilla/5.0 (Windows NT 10.0; Win64; x64) AppleWebKit/537.36 (KHTML, like Gecko) Chrome/122.0.0.0 Safari/537.36",
    accept := "text/html,application/xhtml+xml,application/xml;q=0.9,*/*;q=0.8" }

/-- `verification/tools.py` line 30. -/
def _RETRYABLE_STATUS : List Nat := [429, 500, 502, 503, 504]

/-- Outcome of one `client.get` call: a response with a status code and
text, a connection-class exception (`httpx.ConnectError`, `ReadTimeout`,
`ConnectTimeout`), or any other exception.  Exception messages stand for
Python's `f"{type(e).__name__}: {e}"` rendering. -/
inductive HttpOutcome where
  | status (code : Nat) (body : String)
  | connErr (msg : String)
  | exc (msg : String)
deriving Repr, DecidableEq

/-- Observable step of the fetch loop: one HTTP attempt (with the header
set it used) or one backoff sleep (seconds). -/
inductive FetchEvent where
  | attempt (headers : HttpHeaders)
  | sleep (secs : ℚ)
deriving Repr, DecidableEq

/-- `verification/tools.py` line 151:
`headers = _HEADERS if attempt < 2 else _ALT_HEADERS`. -/
def headersFor (attempt : Nat) : HttpHeaders :=
  if attempt < 2 then _HEADERS else _ALT_HEADERS

/-- Python renders `last_error = None` as the string `None` inside the
diagnostic f-string. -/
def renderLastErr : Option String → String
  | none => "None"
  | some s => s

/-- `verification/tools.py` lines 192-199: the Finding returned when the
fetch loop exhausts or breaks. -/
def cbwFailFinding (website_url : String) (last_error : Option String) : SubAgentFinding :=
  { source := "business_website", url := some website_url,
    finding := "Business website was unreachable at time of verification",
    supports_eligibility := none, is_error := true,
    error_detail := some ("Failed to fetch website: " ++ renderLastErr last_error) }

/-- Stand-in for `str(httpx.HTTPStatusError)` raised by
`resp.raise_for_status()` (message text abbreviated to the status). -/
def statusErrStr (code : Nat) : String := s!"HTTPStatusError: HTTP {code}"

/-- `verification/tools.py` lines 150-190: the `for attempt in range(3)`
fetch loop, recursing on the remaining attempts and threading
`last_error`.  Returns the Finding and the trace of attempts/sleeps. -/
def cbw_go (resp : Nat → HttpOutcome) (website_url : String) :
    Nat → Nat → Option String → SubAgentFinding × List FetchEvent
  | 0, _, last_error => (cbwFailFinding website_url last_error, [])
  | remaining + 1, attempt, _ =>
    let hs := headersFor attempt
    match resp attempt with
    | .status code body =>
      if _RETRYABLE_STATUS.contains code then
        let rest := cbw_go resp website_url remaining (attempt + 1) (some s!"HTTP {code}")
        (rest.1, .attempt hs :: .sleep (3/2 * ((attempt : ℚ) + 1)) :: rest.2)
      else if code = 403 && attempt = 0 then
        let rest := cbw_go resp website_url remaining (attempt + 1) (some "HTTP 403 Forbidden")
        (rest.1, .attempt hs :: .sleep 1 :: rest.2)
      else if 400 ≤ code then
        (cbwFailFinding website_url (some (statusErrStr code)), [.attempt hs])
      else
        let text := _extract_text body 4000
        if text.length < 50 then
          ({ source := "business_website", url := some website_url,
             finding := "Website returned minimal content (possibly JS-rendered or down)",
             supports_eligibility := none }, [.attempt hs])
        else
          ({ source := "business_website", url := some website_url,
             finding := "Website content: " ++ text.take 3500,
             supports_eligibility := none }, [.attempt hs])
    | .connErr m =>
      let rest := cbw_go resp website_url remaining (attempt + 1) (some m)
      (rest.1, .attempt hs :: .sleep (3/2 * ((attempt : ℚ) + 1)) :: rest.2)
    | .exc m => (cbwFailFinding website_url (some m), [.attempt hs])

/-- The settlement-context dict handed to the probes
(`verification/agent.py` lines 76-81). -/
structure SettlementCtx where
  settlement_name : String := ""
  defendant : String := ""
  eligible_actions : List String := []
  platform_keywords : List String := []
deriving Repr, DecidableEq

/-- `verification/tools.py` lines 140-199 (`check_business_website`):
fetch the business website and extract text for analysis.  The
`settlement_context` argument is accepted and unused, as in the source. -/
def check_business_website (website_url : String) (_settlement_context : SettlementCtx)
    (resp : Nat → HttpOutcome) : SubAgentFinding × List FetchEvent :=
  if website_url = "" then
    ({ source := "business_website",
       finding := "No website available for this business",
       supports_eligibility := none }, [])
  else cbw_go resp website_url 3 0 none

/-- One DuckDuckGo result dict (fields read via `.get(key, "")`). -/
structure SearchHit where
  title : String := ""
  body : String := ""
  href : String := ""
deriving Repr, DecidableEq

/-- DuckDuckGo collaborator: `available` is whether
`from duckduckgo_search import DDGS` succeeds; `text q k a` is the
outcome of `ddg.text(q, max_results=k)` on attempt `a`. -/
structure DdgEnv where
  available : Bool
  text : String → Nat → Nat → Except PyErr (List SearchHit)

/-- `verification/tools.py` lines 128-137: the retry loop of
`_ddg_search_with_retry`; any exception from `ddg.text` is absorbed and
retried, and exhaustion returns `[]`. -/
def ddgAttemptLoop (env : DdgEnv) (query : String) (max_results : Nat) :
    Nat → Nat → List SearchHit
  | 0, _ => []
  | r + 1, attempt =>
    match env.text query max_results attempt with
    | .ok hits => hits
    | .error _ => ddgAttemptLoop env query max_results r (attempt + 1)

/-- `verification/tools.py` lines 122-137 (`_ddg_search_with_retry`):
run a DuckDuckGo text search with retry on failure.  The `import` inside
the function body is the only raise site. -/
def _ddg_search_with_retry (env : DdgEnv) (query : String) (max_results : Nat := 5)
    (attempts : Nat := 2) : Except PyErr (List SearchHit) :=
  if env.available then .ok (ddgAttemptLoop env query max_results attempts 0)
  else .error (.importError "No module named duckduckgo_search")

/-- `f"[{hit.get('title','')}] {hit.get('body','')} ({hit.get('href','')})"`. -/
def fmtHit (h : SearchHit) : String :=
  let t := h.title
  let b := h.body
  let hr := h.href
  s!"[{t}] {b} ({hr})"

/-- `verification/tools.py` line 208 etc.: `kw in settlement_name.lower()
or kw in defendant.lower()`. -/
def plat_kw_hit (kw : String) (settlement_context : SettlementCtx) : Bool :=
  containsSub kw.toList (settlement_context.settlement_name.toList.map Char.toLower)
    || containsSub kw.toList (settlement_context.defendant.toList.map Char.toLower)

/-- `verification/tools.py` lines 204-219: query selection of
`search_platform_presence`. -/
def plat_queries (business_name city : String) (settlement_context : SettlementCtx) :
    List String :=
  if plat_kw_hit "grubhub" settlement_context || plat_kw_hit "seamless" settlement_context then
    [s!"\"{business_name}\" {city} grubhub",
     s!"\"{business_name}\" {city} site:grubhub.com"]
  else if plat_kw_hit "doordash" settlement_context
      || plat_kw_hit "caviar" settlement_context then
    [s!"\"{business_name}\" {city} doordash"]
  else if plat_kw_hit "discover" settlement_context then
    [s!"\"{business_name}\" {city} \"accepts discover\"",
     s!"\"{business_name}\" {city} discover card"]
  else if containsSub "payment card".toList
        (settlement_context.settlement_name.toList.map Char.toLower)
      || containsSub "interchange".toList
        (settlement_context.settlement_name.toList.map Char.toLower) then
    [s!"\"{business_name}\" {city} credit card payment processing"]
  else
    let defendant := settlement_context.defendant
    [s!"\"{business_name}\" {city} {defendant}"]

/-- `verification/tools.py` lines 222-227: the `try` body of
`search_platform_presence` (search each of the first two queries and
format the hits). -/
def spp_try (env : DdgEnv) (queries : List String) : Except PyErr (List String) :=
  (queries.take 2).foldlM (fun acc q => do
    let hits ← _ddg_search_with_retry env q 3 2
    pure (acc ++ hits.map fmtHit)) []

/-- `verification/tools.py` lines 202-239 (`search_platform_presence`):
search for the business on settlement-relevant platforms.  Only
`ImportError` is caught (line 228); any other exception would propagate. -/
def search_platform_presence (env : DdgEnv) (business_name city : String)
    (settlement_context : SettlementCtx) : Except PyErr SubAgentFinding :=
  match spp_try env (plat_queries business_name city settlement_context) with
  | .error (.importError _) =>
    .ok { source := "platform_search",
          finding := "duckduckgo-search package not available",
          supports_eligibility := none }
  | .error e => .error e
  | .ok results_text =>
    if results_text.isEmpty then
      let defendant := settlement_context.defendant
      .ok { source := "platform_search",
            finding := s!"No platform presence found for {sqc}{business_name}{sqc} in {city} related to {defendant}",
            supports_eligibility := none }
    else
      let combined := String.intercalate "\n" (results_text.take 6)
      .ok { source := "platform_search",
            finding := "Platform search results:\n" ++ combined.take 2500,
            supports_eligibility := none }

/-- `verification/tools.py` lines 242-269 (`search_general_context`):
search for general info about the business. -/
def search_general_context (env : DdgEnv) (business_name city : String)
    (state : String := "OH") : Except PyErr SubAgentFinding :=
  match _ddg_search_with_retry env s!"\"{business_name}\" {city} {state}" 5 2 with
  | .error (.importError _) =>
    .ok { source := "general_search", finding := "Search package not available",
          supports_eligibility := none, is_error := true,
          error_detail := some "duckduckgo-search package not installed" }
  | .error e =>
    .ok { source := "general_search",
          finding := "General web search was unavailable at time of verification",
          supports_eligibility := none, is_error := true,
          error_detail := some ("General search failed: " ++ e.str) }
  | .ok hits =>
    if hits.isEmpty then
      .ok { source := "general_search",
            finding := s!"No web results found for {sqc}{business_name}{sqc} in {city}, {state}",
            supports_eligibility := none }
    else
      let combined := String.intercalate "\n" (hits.map fmtHit)
      .ok { source := "general_search",
            finding := "General web search results:\n" ++ combined.take 2500,
            supports_eligibility := none }

/-- `verification/tools.py` lines 272-299 (`check_review_presence`):
search for review/listing presence. -/
def check_review_presence (env : DdgEnv) (business_name city : String)
    (state : String := "OH") : Except PyErr SubAgentFinding :=
  match _ddg_search_with_retry env
    s!"\"{business_name}\" {city} {state} yelp OR reviews OR \"google reviews\"" 4 2 with
  | .error (.importError _) =>
    .ok { source := "review_search", finding := "Search package not available",
          supports_eligibility := none, is_error := true,
          error_detail := some "duckduckgo-search package not installed" }
  | .error e =>
    .ok { source := "review_search",
          finding := "Review search was unavailable at time of verification",
          supports_eligibility := none, is_error := true,
          error_detail := some ("Review search failed: " ++ e.str) }
  | .ok hits =>
    if hits.isEmpty then
      .ok { source := "review_search",
            finding := s!"No review listings found for {sqc}{business_name}{sqc} in {city}",
            supports_eligibility := none }
    else
      let combined := String.intercalate "\n" (hits.map fmtHit)
      .ok { source := "review_search",
            finding := "Review/listing search results:\n" ++ combined.take 2000,
            supports_eligibility := none }

/-- Wayback collaborator.  `cdx` is the combined outcome of the CDX GET,
`raise_for_status`, and `.json()`: an exception, a non-list payload
(`none`), or a list whose elements are non-list rows (`none`) or rows of
cells.  `snap ts original` is the outcome of fetching the snapshot view
URL for one sampled row. -/
structure WbEnv where
  cdx : Except PyErr (Option (List (Option (List String))))
  snap : String → String → HttpOutcome

/-- Sort key `r[0]` of a capture row. -/
def rowKey (r : List String) : String := r.headD ""

/-- `verification/tools.py` lines 339-345: the neutral no-captures
Finding. -/
def wbNoCaptures (domain : String) : SubAgentFinding :=
  { source := "wayback_archive", url := some (_WAYBACK_VIEW_BASE ++ "/*/" ++ domain),
    finding := s!"Wayback archive has no HTML captures for {domain} in the sampled index.",
    supports_eligibility := none }

/-- `verification/tools.py` lines 353-372: process one sampled row
(skip on bad timestamp, fetch error, HTTP ≥ 400, or short text;
otherwise build the scored record, `matched` iff score ≥ 0.65). -/
def wbSnapRec (business_name city : String) (env : WbEnv) (row : List String) :
    Option SampleRec :=
  let ts := row.headD ""
  let original := (row.drop 1).headD ""
  match _wayback_iso_date ts with
  | none => none
  | some iso_date =>
    let snap_url := _WAYBACK_VIEW_BASE ++ "/" ++ ts ++ "id_/" ++ original
    match env.snap ts original with
    | .connErr _ => none
    | .exc _ => none
    | .status code body =>
      if 400 ≤ code then none
      else
        let text := _extract_text body 7000
        if text.length < 40 then none
        else
          let sc := _identity_score text business_name city
          some { date := iso_date, url := snap_url, score := sc.1,
                 owner_change := sc.2, matched := decide (sc.1 ≥ 13/20) }

/-- `verification/tools.py` lines 339-416: the list-payload part of the
`try` body of `check_wayback_history` (row filtering, chronological
sort, sampling, snapshot scoring, verdict).  `rows[0][0]` on an empty
filtered row list raises `IndexError`. -/
def wb_rows_branch (business_name city domain : String) (env : WbEnv)
    (pl : List (Option (List String))) : Except PyErr SubAgentFinding :=
  if pl.length ≤ 1 then .ok (wbNoCaptures domain)
  else
    match (((pl.drop 1).filterMap id).filter (fun r => decide (2 ≤ r.length))).insertionSort
        (fun a b => (rowKey a).toList ≤ (rowKey b).toList) with
    | [] => .error (.other "IndexError: list index out of range")
    | r0 :: rest =>
      .ok (wayback_identity_verdict domain
        ((_wayback_iso_date (rowKey r0)).getD "unknown")
        ((_sample_wayback_rows (r0 :: rest) 8).foldl
          (fun acc row => acc ++ (wbSnapRec business_name city env row).toList) []))

/-- `verification/tools.py` lines 334-416: the `try` body of
`check_wayback_history`: the CDX lookup outcome dispatch, then the
list-payload branch. -/
def wb_body (business_name city domain : String) (env : WbEnv) :
    Except PyErr SubAgentFinding :=
  match env.cdx with
  | .error e => .error e
  | .ok none => .ok (wbNoCaptures domain)
  | .ok (some pl) => wb_rows_branch business_name city domain env pl

/-- `verification/tools.py` lines 302-426 (`check_wayback_history`):
check Wayback for the earliest matching identity capture.  The result
type is `Except` so that "never raises" is a provable statement; the
final `except Exception` converts every body error into an error
Finding. -/
def check_wayback_history (business_name city website_url : String) (env : WbEnv) :
    Except PyErr SubAgentFinding :=
  if website_url = "" then
    .ok { source := "wayback_archive",
          finding := "No website available, so archive history could not be evaluated.",
          supports_eligibility := none }
  else
    let domain := _domain_from_website website_url
    if domain = "" then
      .ok { source := "wayback_archive", url := some website_url,
            finding := "Website URL format prevented archive lookup.",
            supports_eligibility := none, is_error := true,
            error_detail := some ("Invalid website URL: " ++ website_url) }
    else
      match wb_body business_name city domain env with
      | .ok f => .ok f
      | .error e =>
        .ok { source := "wayback_archive",
              url := some (_WAYBACK_VIEW_BASE ++ "/*/" ++ domain),
              finding := "Wayback archive lookup was unavailable at time of verification.",
              supports_eligibility := none, is_error := true,
              error_detail := some ("Wayback lookup failed: " ++ e.str) }

/-! ### llm/structured_json.py

The reasoning collaborator's reply is modelled from the parsed-JSON
boundary onward: the environment supplies either a parse/transport error
(covering `ainvoke` failures, fence stripping, and `json.loads`) or the
decoded top-level object as key/value pairs.  The reply schema requested
from the collaborator is flat, so nested JSON values are not modelled;
`validateVerificationResult` rejects keys it cannot represent. -/

/-- A flat JSON value of the reasoning reply. -/
inductive JValue where
  | str (s : String)
  | int (n : Int)
  | bool (b : Bool)
  | null
deriving Repr, DecidableEq

/-- Pydantic validation of `verification/schemas.py`'s
`VerificationResult` field declarations: `verdict` is required, the
others take their declared defaults when absent.  No field declares any
range constraint — in particular `confidence` accepts any `int`. -/
def validateVerificationResult (data : List (String × JValue)) :
    Except PyErr VerificationResult := do
  let verdict ← match data.lookup "verdict" with
    | some (.str s) => pure s
    | some _ => throw (.other "ValidationError: verdict: str type expected")
    | none => throw (.other "ValidationError: verdict: field required")
  let confidence ← match data.lookup "confidence" with
    | some (.int n) => pure n
    | some _ => throw (.other "ValidationError: confidence: int type expected")
    | none => pure (50 : Int)
  let is_chain ← match data.lookup "is_chain" with
    | some (.bool b) => pure b
    | some _ => throw (.other "ValidationError: is_chain: bool type expected")
    | none => pure false
  let chain_reason ← match data.lookup "chain_reason" with
    | some (.str s) => pure (some s)
    | some _ => throw (.other "ValidationError: chain_reason: str type expected")
    | none => pure none
  let reasoning ← match data.lookup "reasoning" with
    | some (.str s) => pure s
    | some _ => throw (.other "ValidationError: reasoning: str type expected")
    | none => pure ""
  match data.lookup "evidence", data.lookup "checks_performed" with
  | none, none =>
    pure { verdict := verdict, confidence := confidence, is_chain := is_chain,
           chain_reason := chain_reason, reasoning := reasoning }
  | _, _ => throw (.other "ValidationError: list-valued field not modelled")

/-- `llm/structured_json.py` lines 31-40 (`ainvoke_pydantic`): parse and
validate the collaborator's JSON into the model, after dropping explicit
nulls so model defaults can apply. -/
def ainvoke_pydantic (reply : Except PyErr (List (String × JValue))) :
    Except PyErr VerificationResult := do
  let data ← reply
  let data := data.filter (fun p => decide (p.2 ≠ JValue.null))
  validateVerificationResult data

/-! ### verification/agent.py -/

/-- The business dict, with the `.get(key, default)` defaults of
`verification/agent.py` folded into the fields; `website` keeps its
`None`-ness because of the `business.get("website") or ""` read. -/
structure Business where
  name : String := ""
  city : String := ""
  website : Option String := none
  category : String := "Unknown"
  address : String := ""
deriving Repr, DecidableEq

/-- The settlement dict, with the `.get` defaults folded in. -/
structure Settlement where
  settlement_name : String := "Unknown"
  defendant : String := ""
  summary : String := ""
  eligible_class_description : String := ""
  eligible_actions : List String := []
  eligible_industries : List String := []
  eligible_geography : String := ""
  eligible_time_period : String := ""
  exclusions : List String := []
deriving Repr, DecidableEq

/-- `verification/agent.py` lines 100-105: one block of the findings
digest. -/
def digestBlock (i : Nat) (f : SubAgentFinding) : String :=
  let src := f.source
  let fnd := f.finding
  s!"\n--- Finding {i} ({src}) ---\n"
    ++ (match f.url with
        | some u => s!"URL: {u}\n"
        | none => "")
    ++ s!"{fnd}\n"

/-- `verification/agent.py` lines 100-105: `findings_text` accumulated
over `enumerate(findings, 1)`. -/
def buildDigest (findings : List SubAgentFinding) : String :=
  String.join (findings.enum.map (fun p => digestBlock (p.1 + 1) p.2))

/-- `verification/agent.py` lines 22-52 and 107-123: the reasoning
prompt with all fields substituted. -/
def buildPrompt (settlement : Settlement) (business : Business)
    (biz_website findings_text : String) : String :=
  let settlement_name := settlement.settlement_name
  let defendant := settlement.defendant
  let summary := settlement.summary
  let eligible_class := settlement.eligible_class_description
  let eligible_actions := String.intercalate ", " settlement.eligible_actions
  let eligible_industries := String.intercalate ", " settlement.eligible_industries
  let eligible_geography := settlement.eligible_geography
  let eligible_time_period := settlement.eligible_time_period
  let exclusions := String.intercalate ", " settlement.exclusions
  let biz_name := business.name
  let biz_category := business.category
  let biz_address := business.address
  let biz_city := business.city
  s!"You are a verification analyst for a small-business settlement matching service.

SETTLEMENT CONTEXT:
  Name: {settlement_name}
  Defendant: {defendant}
  Summary: {summary}
  Eligible class: {eligible_class}
  Eligible actions: {eligible_actions}
  Eligible industries: {eligible_industries}
  Eligible geography: {eligible_geography}
  Eligible time period: {eligible_time_period}
  Exclusions: {exclusions}

BUSINESS:
  Name: {biz_name}
  Category: {biz_category}
  Address: {biz_address}, {biz_city}, OH
  Website: {biz_website}

RESEARCH FINDINGS:
{findings_text}

TASK:
- Decide whether this business is likely eligible for this settlement.
- Return ONLY valid JSON with these keys:
  verdict: \"verified\"|\"likely\"|\"unlikely\"|\"excluded\"
  confidence: int 0-100
  is_chain: bool
  chain_reason: string|null
  reasoning: string
"

/-- `verification/agent.py` lines 55-62 (`_with_context`): attach tool
findings to a verdict by building a new value (`model_copy(update=...)`). -/
def _with_context (result : VerificationResult) (findings : List SubAgentFinding)
    (checks_performed : List String) : VerificationResult :=
  { result with evidence := findings, checks_performed := checks_performed }

/-- `verification/agent.py` lines 83-88: the fixed probe-name list. -/
def verify_checks : List String :=
  ["business_website", "platform_search", "general_search", "review_search"]

/-- Environment of one `verify_candidate` call: the HTTP outcomes for the
website fetch, the DuckDuckGo collaborator, the reasoning collaborator
(prompt ↦ parsed JSON reply), and the scheduler's completion order for
the four probe tasks. -/
structure AgentEnv where
  http : Nat → HttpOutcome
  ddg : DdgEnv
  llm : String → Except PyErr (List (String × JValue))
  order : List ℕ

/-- `verification/agent.py` lines 90-95: the four probe tasks, in the
fixed fan-out order.  Each coroutine's eventual value is wrapped in
`some` (a Finding is never Python `None`); `check_business_website`
cannot raise, the search probes carry their `Except`. -/
def verify_tasks (business : Business) (settlement : Settlement) (env : AgentEnv) :
    List (Except PyErr (Option SubAgentFinding)) :=
  let biz_name := business.name
  let biz_city := business.city
  let biz_website := business.website.getD ""
  let settlement_context : SettlementCtx :=
    { settlement_name := settlement.settlement_name,
      defendant := settlement.defendant,
      eligible_actions := settlement.eligible_actions,
      platform_keywords := settlement.eligible_actions }
  [.ok (some (check_business_website biz_website settlement_context env.http).1),
   (search_platform_presence env.ddg biz_name biz_city settlement_context).map some,
   (search_general_context env.ddg biz_name biz_city "OH").map some,
   (check_review_presence env.ddg biz_name biz_city "OH").map some]

/-- `verification/agent.py` lines 97-129: the `try` body of
`verify_candidate` (fan-out, digest, prompt, reasoning call, context
merge). -/
def verify_body (business : Business) (settlement : Settlement) (env : AgentEnv) :
    Except PyErr VerificationResult := do
  let tasks := verify_tasks business settlement env
  let findings ← gather_with_limit tasks env.order 4
  let findings_text := buildDigest findings
  let bw := business.website.getD ""
  let prompt := buildPrompt settlement business (if bw = "" then "None" else bw) findings_text
  let verdict ← ainvoke_pydantic (env.llm prompt)
  pure (_with_context verdict findings verify_checks)

/-- `verification/agent.py` lines 65-139 (`verify_candidate`): verify a
single business × settlement candidate.  The `except Exception` boundary
converts every pipeline error into the fallback result; the Lean return
type has no `Except`, so this function provably never raises. -/
def verify_candidate (business : Business) (settlement : Settlement) (env : AgentEnv) :
    VerificationResult :=
  match verify_body business settlement env with
  | .ok r => r
  | .error e =>
    { verdict := "unlikely", confidence := 0, evidence := [],
      reasoning := "Verification failed: " ++ e.str,
      checks_performed := verify_checks }

/-! ### Supporting lemmas: the fan-out executor -/

theorem foldl_set_length {α : Type} (f : ℕ → Option α) (l : List ℕ) (acc : List (Option α)) :
    (l.foldl (fun acc k => acc.set k (f k)) acc).length = acc.length := by
  induction l generalizing acc with
  | nil => rfl
  | cons j t ih => simpa [List.length_set] using ih (acc.set j (f j))

theorem foldl_set_getElem_not_mem {α : Type} (f : ℕ → Option α) (l : List ℕ)
    (acc : List (Option α)) (i : ℕ) (hi : i ∉ l) :
    (l.foldl (fun acc k => acc.set k (f k)) acc)[i]? = acc[i]? := by
  induction l generalizing acc with
  | nil => rfl
  | cons j t ih =>
    have hij : i ≠ j := fun h => hi (h ▸ List.mem_cons_self j t)
    have hit : i ∉ t := fun h => hi (List.mem_cons.mpr (Or.inr h))
    simp only [List.foldl_cons]
    rw [ih _ hit, List.getElem?_set_ne (Ne.symm hij)]

theorem foldl_set_getElem_mem {α : Type} (f : ℕ → Option α) (l : List ℕ)
    (acc : List (Option α)) (i : ℕ) (hi : i ∈ l) (hlen : i < acc.length) :
    (l.foldl (fun acc k => acc.set k (f k)) acc)[i]? = some (f i) := by
  induction l generalizing acc with
  | nil => cases hi
  | cons j t ih =>
    simp only [List.foldl_cons]
    by_cases hit : i ∈ t
    · exact ih _ hit (by simpa [List.length_set] using hlen)
    · have hij : i = j := by
        rcases List.mem_cons.mp hi with h | h
        · exact h
        · exact absurd h hit
      subst hij
      rw [foldl_set_getElem_not_mem f t _ i hit]
      exact List.getElem?_set_self hlen

theorem fanoutFirstErr_eq_none {α : Type} (aws : List (Except PyErr (Option α)))
    (l : List ℕ) (hok : ∀ (k : ℕ) (e : PyErr), aws[k]? ≠ some (Except.error e)) :
    fanoutFirstErr aws l = none := by
  induction l with
  | nil => rfl
  | cons k t ih =>
    unfold fanoutFirstErr
    cases h : aws[k]? with
    | none => exact ih
    | some x =>
      cases x with
      | ok v => exact ih
      | error e => exact absurd h (hok k e)

theorem fanoutRun_all_some {α : Type} (vals : List α) (order : List ℕ)
    (hmem : ∀ k < vals.length, k ∈ order) :
    fanoutRun (vals.map (fun v => .ok (some v))) order = vals.map some := by
  apply List.ext_getElem?
  intro i
  unfold fanoutRun
  rcases Nat.lt_or_ge i vals.length with hi | hi
  · rw [foldl_set_getElem_mem _ _ _ i (hmem i hi) (by simpa using hi)]
    have hv : vals[i]? = some vals[i] := List.getElem?_eq_getElem hi
    have ht : taskVal (vals.map (fun v => (Except.ok (some v) : Except PyErr (Option α)))) i
        = some vals[i] := by
      unfold taskVal
      rw [List.getElem?_map, hv]
      rfl
    rw [ht, List.getElem?_map, hv]
    rfl
  · have hL : (List.foldl
        (fun acc k =>
          acc.set k (taskVal (vals.map fun v => (Except.ok (some v) : Except PyErr (Option α))) k))
        (List.replicate (vals.map fun v =>
          (Except.ok (some v) : Except PyErr (Option α))).length none) order).length ≤ i := by
      rw [foldl_set_length]
      simpa using hi
    rw [List.getElem?_eq_none hL, List.getElem?_eq_none (by simpa using hi)]

theorem gather_with_limit_all_ok {α : Type} (vals : List α) (order : List ℕ) (c : Int)
    (hmem : ∀ k < vals.length, k ∈ order) (hc : 1 ≤ c) :
    gather_with_limit (vals.map (fun v => .ok (some v))) order c = .ok vals := by
  unfold gather_with_limit
  rw [if_neg (by omega)]
  rw [fanoutFirstErr_eq_none _ _ (by
    intro k e h
    rw [List.getElem?_map] at h
    cases hv : vals[k]? with
    | none => rw [hv] at h; simp at h
    | some v => rw [hv] at h; simp at h)]
  rw [fanoutRun_all_some vals order hmem]
  simp [List.filterMap_map, Function.comp_def, List.filterMap_some]

theorem map_with_limit_all_ok {α β : Type} (items : List β) (w : β → α) (order : List ℕ)
    (c : Int) (d : ℚ) (hmem : ∀ k < items.length, k ∈ order) (hc : 1 ≤ c) :
    map_with_limit items (fun b => .ok (some (w b))) order c d = .ok (items.map w) := by
  have hb : map_with_limit items (fun b => (Except.ok (some (w b)) : Except PyErr (Option α)))
        order c d
      = gather_with_limit ((items.map w).map (fun v => .ok (some v))) order c := by
    unfold map_with_limit gather_with_limit
    rw [List.map_map]
    rfl
  rw [hb]
  exact gather_with_limit_all_ok (items.map w) order c (by simpa using hmem) hc

/-- C1 (amended): for every completion order in which all N slots
complete and every concurrency limit C ≥ 1, both fan-out variants return
the N operations' results with result[i] the result of input operation
i, provided every operation's value is non-None.  (The source's final
`if r is not None` filter drops None-valued results, see the
counterexample; for non-None results the claim holds as stated,
regardless of completion order.) -/
theorem c1_fanout_preserves_order {α β : Type} (vals : List α) (items : List β) (w : β → α)
    (order order2 : List ℕ) (c c2 : Int) (d : ℚ)
    (hmem : ∀ k < vals.length, k ∈ order) (hc : 1 ≤ c)
    (hmem2 : ∀ k < items.length, k ∈ order2) (hc2 : 1 ≤ c2) :
    gather_with_limit (vals.map (fun v => .ok (some v))) order c = .ok vals
      ∧ map_with_limit items (fun b => .ok (some (w b))) order2 c2 d = .ok (items.map w) :=
  ⟨gather_with_limit_all_ok vals order c hmem hc,
   map_with_limit_all_ok items w order2 c2 d hmem2 hc2⟩

/-- C1 witness: three awaitables completing in order 2, 0, 1 under
concurrency 2 yield exactly the three inputs in input order; likewise
for the worker variant with a delay. -/
theorem c1_fanout_preserves_order_witness :
    gather_with_limit ([10, 20, 30].map (fun v => .ok (some v))) [2, 0, 1] 2 = .ok [10, 20, 30]
      ∧ map_with_limit ["aa", "b"] (fun b => .ok (some (String.length b))) [1, 0] 1 (1/2)
        = .ok (["aa", "b"].map String.length) :=
  c1_fanout_preserves_order [10, 20, 30] ["aa", "b"] String.length [2, 0, 1] [1, 0] 2 1 (1/2)
    (by decide) (by decide) (by decide) (by decide)

/-- C1 counterexample: a single awaitable (N = 1) whose value is Python
`None`, run at concurrency 1, yields an empty result list — not a list
of exactly N = 1 results as the claim states. -/
theorem c1_counterexample :
    gather_with_limit [(Except.ok none : Except PyErr (Option Nat))] [0] 1 = .ok []
      ∧ ¬∃ r : List Nat,
          gather_with_limit [(Except.ok none : Except PyErr (Option Nat))] [0] 1 = .ok r
            ∧ r.length = 1 := by
  refine ⟨rfl, ?_⟩
  rintro ⟨r, hr, hlen⟩
  have h2 : (Except.ok ([] : List ℕ) : Except PyErr (List ℕ)) = Except.ok r := hr
  injection h2 with h3
  rw [← h3] at hlen
  exact absurd hlen (by decide)

/-! ### Supporting lemmas: the Wayback sampler -/

theorem sampleLoop_subset (m : Nat) (s : Finset ℕ) (l : List ℕ) :
    s ⊆ sampleLoop m s l := by
  induction l generalizing s with
  | nil => exact Finset.Subset.refl s
  | cons i t ih =>
    unfold sampleLoop
    by_cases h : m ≤ (insert i s).card
    · rw [if_pos h]
      exact Finset.subset_insert i s
    · rw [if_neg h]
      exact Finset.Subset.trans (Finset.subset_insert i s) (ih (insert i s))

theorem sampleLoop_card_le (m : Nat) (s : Finset ℕ) (l : List ℕ) (hs : s.card < m) :
    (sampleLoop m s l).card ≤ m := by
  induction l generalizing s with
  | nil => exact Nat.le_of_lt hs
  | cons i t ih =>
    unfold sampleLoop
    have hins : (insert i s).card ≤ m := by
      have := Finset.card_insert_le i s
      omega
    by_cases h : m ≤ (insert i s).card
    · rw [if_pos h]
      exact hins
    · rw [if_neg h]
      exact ih (insert i s) (Nat.lt_of_not_le h)

theorem sampleLoop_bound (m : Nat) (s : Finset ℕ) (l : List ℕ) (L : Nat)
    (hs : ∀ x ∈ s, x < L) (hl : ∀ x ∈ l, x < L) :
    ∀ x ∈ sampleLoop m s l, x < L := by
  induction l generalizing s with
  | nil => exact hs
  | cons i t ih =>
    unfold sampleLoop
    have hins : ∀ x ∈ insert i s, x < L := by
      intro x hx
      rcases Finset.mem_insert.mp hx with h | h
      · exact h ▸ hl i (List.mem_cons_self i t)
      · exact hs x h
    by_cases h : m ≤ (insert i s).card
    · rw [if_pos h]
      exact hins
    · rw [if_neg h]
      exact ih (insert i s) hins (fun x hx => hl x (List.mem_cons.mpr (Or.inr hx)))

theorem pyRange_bound (L step : Nat) (hstep : 1 ≤ step) :
    ∀ x ∈ pyRange L step, x < L := by
  intro x hx
  unfold pyRange at hx
  rcases List.mem_range'.mp hx with ⟨i, hi, hxi⟩
  have h1 : (i + 1) * step ≤ ((L + step - 1) / step) * step :=
    Nat.mul_le_mul_right step hi
  have h2 : ((L + step - 1) / step) * step ≤ L + step - 1 :=
    Nat.div_mul_le_self (L + step - 1) step
  have h3 : (i + 1) * step = i * step + step := by ring
  have h4 : x = step * i := by omega
  have h5 : step * i = i * step := Nat.mul_comm step i
  omega

theorem sampleIndices_facts (L : Nat) (hL : 8 < L) :
    0 ∈ sampleIndices L 8 ∧ 1 ∈ sampleIndices L 8 ∧ 2 ∈ sampleIndices L 8
      ∧ L - 1 ∈ sampleIndices L 8 ∧ (sampleIndices L 8).card ≤ 8
      ∧ ∀ i ∈ sampleIndices L 8, i < L := by
  have hmin : min 2 (L - 1) = 2 := by omega
  have hsub : ({0, 1, min 2 (L - 1), L - 1} : Finset ℕ) ⊆ sampleIndices L 8 :=
    sampleLoop_subset 8 _ _
  have h0 : 0 ∈ sampleIndices L 8 := hsub (by simp)
  have h1 : 1 ∈ sampleIndices L 8 := hsub (by simp)
  have h2 : 2 ∈ sampleIndices L 8 := hsub (by simp [hmin])
  have hlast : L - 1 ∈ sampleIndices L 8 := hsub (by simp)
  have hcard : (sampleIndices L 8).card ≤ 8 := by
    apply sampleLoop_card_le
    have ha := Finset.card_insert_le (0 : ℕ) {1, min 2 (L - 1), L - 1}
    have hb := Finset.card_insert_le (1 : ℕ) {min 2 (L - 1), L - 1}
    have hc := Finset.card_insert_le (min 2 (L - 1)) ({L - 1} : Finset ℕ)
    have hd : ({L - 1} : Finset ℕ).card = 1 := Finset.card_singleton _
    omega
  have hbound : ∀ i ∈ sampleIndices L 8, i < L := by
    apply sampleLoop_bound
    · intro x hx
      simp [Finset.mem_insert, Finset.mem_singleton, hmin] at hx
      rcases hx with h | h | h | h <;> omega
    · exact pyRange_bound L _ (le_max_left 1 _)
  exact ⟨h0, h1, h2, hlast, hcard, hbound⟩

/-- C7: `_sample_wayback_rows` returns all rows when there are at most 8;
otherwise it returns the rows at the sampled index set in ascending index
order — at most 8 of them, always including indices 0, 1, 2 and the last
index — where the index set is built by striding at
`step = max(1, (len-1) // (maxSamples-1))` until 8 distinct indices are
collected (the definition of `sampleIndices`). -/
theorem c7_sample_wayback_rows_spec (rows : List (List String)) :
    (rows.length ≤ 8 → _sample_wayback_rows rows = rows)
    ∧ (8 < rows.length →
        (_sample_wayback_rows rows).length ≤ 8
        ∧ _sample_wayback_rows rows
            = ((sampleIndices rows.length 8).sort (· ≤ ·)).filterMap (fun i => rows[i]?)
        ∧ 0 ∈ sampleIndices rows.length 8
        ∧ 1 ∈ sampleIndices rows.length 8
        ∧ 2 ∈ sampleIndices rows.length 8
        ∧ rows.length - 1 ∈ sampleIndices rows.length 8
        ∧ (∀ i ∈ sampleIndices rows.length 8, i < rows.length)
        ∧ (∃ r0, rows[0]? = some r0 ∧ r0 ∈ _sample_wayback_rows rows)
        ∧ (∃ rl, rows[rows.length - 1]? = some rl ∧ rl ∈ _sample_wayback_rows rows)
        ∧ List.Sorted (· ≤ ·) ((sampleIndices rows.length 8).sort (· ≤ ·))) := by
  constructor
  · intro h
    unfold _sample_wayback_rows
    rw [if_pos h]
  · intro h
    obtain ⟨h0, h1, h2, hlast, hcard, hbound⟩ := sampleIndices_facts rows.length h
    have heq : _sample_wayback_rows rows
        = ((sampleIndices rows.length 8).sort (· ≤ ·)).filterMap (fun i => rows[i]?) := by
      unfold _sample_wayback_rows
      rw [if_neg (by omega)]
    have hlen : (_sample_wayback_rows rows).length ≤ 8 := by
      rw [heq]
      calc (((sampleIndices rows.length 8).sort (· ≤ ·)).filterMap (fun i => rows[i]?)).length
          ≤ ((sampleIndices rows.length 8).sort (· ≤ ·)).length :=
            List.length_filterMap_le _ _
        _ = (sampleIndices rows.length 8).card := Finset.length_sort _
        _ ≤ 8 := hcard
    have hmem0 : ∃ r0, rows[0]? = some r0 ∧ r0 ∈ _sample_wayback_rows rows := by
      refine ⟨rows.get ⟨0, by omega⟩, List.getElem?_eq_getElem (by omega), ?_⟩
      rw [heq]
      exact List.mem_filterMap.mpr
        ⟨0, (Finset.mem_sort _).mpr h0, List.getElem?_eq_getElem (by omega)⟩
    have hmeml : ∃ rl, rows[rows.length - 1]? = some rl ∧ rl ∈ _sample_wayback_rows rows := by
      refine ⟨rows.get ⟨rows.length - 1, by omega⟩, List.getElem?_eq_getElem (by omega), ?_⟩
      rw [heq]
      exact List.mem_filterMap.mpr
        ⟨rows.length - 1, (Finset.mem_sort _).mpr hlast, List.getElem?_eq_getElem (by omega)⟩
    exact ⟨hlen, heq, h0, h1, h2, hlast, hbound, hmem0, hmeml, Finset.sort_sorted _ _⟩

/-- C7 witness: a synthetic capture index of 20 rows is sampled to at
most 8 rows and the returned rows include row 0. -/
theorem c7_sample_wayback_rows_witness :
    (_sample_wayback_rows ((List.range 20).map (fun i => [toString i]))).length ≤ 8
      ∧ (∃ r0, ((List.range 20).map (fun i => [toString i]))[0]? = some r0
          ∧ r0 ∈ _sample_wayback_rows ((List.range 20).map (fun i => [toString i]))) := by
  have h := (c7_sample_wayback_rows_spec ((List.range 20).map (fun i => [toString i]))).2
    (by decide)
  exact ⟨h.1, h.2.2.2.2.2.2.2.1⟩

/-! ### Supporting lemmas: identity scoring -/

theorem identity_raw_nonneg (phrase cityh : Bool) (hits len : ℕ) :
    0 ≤ (if phrase then (7 : ℚ)/10 else 6/10 * ((hits : ℚ) / ((max 1 len : ℕ) : ℚ)))
        + (if cityh then (2 : ℚ)/10 else 0) + (if 2 ≤ hits then (1 : ℚ)/10 else 0) := by
  have h1 : (0 : ℚ) ≤ (hits : ℚ) / ((max 1 len : ℕ) : ℚ) :=
    div_nonneg (by positivity) (by positivity)
  split_ifs <;> linarith

/-- C6: the identity score equals the clamp to [0,1] of
(0.7 when the normalised full name occurs in the page text, else
0.6 × the matched fraction of kept tokens) + 0.2 for a whole-word city
hit + 0.1 when at least 2 tokens matched; it always lies in [0,1], a
phrase hit forces at least 0.7, and no phrase, no city and no token hits
— or an empty normalised name — force 0. -/
theorem c6_identity_score_spec (page_text business_name city : String) :
    ((_identity_score page_text business_name city).1
      = (if cleanName business_name = "" then 0 else
          min ((if identityPhraseHit (cleanName business_name)
                    (page_text.toList.map Char.toLower)
                then (7 : ℚ)/10
                else 6/10 * ((identityTokenHits (identityTokens (cleanName business_name))
                      (page_text.toList.map Char.toLower) : ℚ)
                    / ((max 1 (identityTokens (cleanName business_name)).length : ℕ) : ℚ)))
              + (if identityCityHit city (page_text.toList.map Char.toLower)
                 then (2 : ℚ)/10 else 0)
              + (if 2 ≤ identityTokenHits (identityTokens (cleanName business_name))
                    (page_text.toList.map Char.toLower)
                 then (1 : ℚ)/10 else 0)) 1))
    ∧ 0 ≤ (_identity_score page_text business_name city).1
    ∧ (_identity_score page_text business_name city).1 ≤ 1
    ∧ (identityPhraseHit (cleanName business_name) (page_text.toList.map Char.toLower) = true →
        cleanName business_name ≠ "" →
        7/10 ≤ (_identity_score page_text business_name city).1)
    ∧ (identityPhraseHit (cleanName business_name) (page_text.toList.map Char.toLower) = false →
        identityCityHit city (page_text.toList.map Char.toLower) = false →
        identityTokenHits (identityTokens (cleanName business_name))
            (page_text.toList.map Char.toLower) = 0 →
        (_identity_score page_text business_name city).1 = 0)
    ∧ (cleanName business_name = "" → (_identity_score page_text business_name city).1 = 0) := by
  have heq : (_identity_score page_text business_name city).1
      = (if cleanName business_name = "" then 0 else
          min ((if identityPhraseHit (cleanName business_name)
                    (page_text.toList.map Char.toLower)
                then (7 : ℚ)/10
                else 6/10 * ((identityTokenHits (identityTokens (cleanName business_name))
                      (page_text.toList.map Char.toLower) : ℚ)
                    / ((max 1 (identityTokens (cleanName business_name)).length : ℕ) : ℚ)))
              + (if identityCityHit city (page_text.toList.map Char.toLower)
                 then (2 : ℚ)/10 else 0)
              + (if 2 ≤ identityTokenHits (identityTokens (cleanName business_name))
                    (page_text.toList.map Char.toLower)
                 then (1 : ℚ)/10 else 0)) 1) := by
    unfold _identity_score
    by_cases hcl : cleanName business_name = ""
    · rw [if_pos hcl, if_pos hcl]
    · rw [if_neg hcl, if_neg hcl]
  have hraw := identity_raw_nonneg
    (identityPhraseHit (cleanName business_name) (page_text.toList.map Char.toLower))
    (identityCityHit city (page_text.toList.map Char.toLower))
    (identityTokenHits (identityTokens (cleanName business_name))
      (page_text.toList.map Char.toLower))
    (identityTokens (cleanName business_name)).length
  refine ⟨heq, ?_, ?_, ?_, ?_, ?_⟩
  · rw [heq]
    by_cases hcl : cleanName business_name = ""
    · rw [if_pos hcl]
    · rw [if_neg hcl]
      exact le_min hraw (by norm_num)
  · rw [heq]
    by_cases hcl : cleanName business_name = ""
    · rw [if_pos hcl]; norm_num
    · rw [if_neg hcl]
      exact min_le_right _ _
  · intro hp hcl
    rw [heq, if_neg hcl]
    apply le_min _ (by norm_num)
    rw [hp] at hraw ⊢
    have h2 : (0 : ℚ)
        ≤ (if identityCityHit city (page_text.toList.map Char.toLower)
           then (2 : ℚ)/10 else 0) := by split_ifs <;> norm_num
    have h3 : (0 : ℚ)
        ≤ (if 2 ≤ identityTokenHits (identityTokens (cleanName business_name))
              (page_text.toList.map Char.toLower)
           then (1 : ℚ)/10 else 0) := by split_ifs <;> norm_num
    simp only [if_true]
    linarith
  · intro hp hc hh
    rw [heq]
    by_cases hcl : cleanName business_name = ""
    · rw [if_pos hcl]
    · rw [if_neg hcl, hp, hc, hh]
      norm_num
  · intro hcl
    rw [heq, if_pos hcl]

/-- C6 witness: a page text containing the exact normalised business
name phrase scores at least 0.7. -/
theorem c6_identity_score_witness :
    7/10 ≤ (_identity_score "Welcome to joes pizza llc of Wooster"
        "Joes Pizza, LLC" "Wooster").1 :=
  (c6_identity_score_spec "Welcome to joes pizza llc of Wooster"
      "Joes Pizza, LLC" "Wooster").2.2.2.1 (by decide) (by decide)


/-! ### Supporting lemmas: wayback continuity -/

theorem sortByDate_perm (l : List SampleRec) : (sortByDate l).Perm l :=
  List.perm_insertionSort dateLe l

theorem sortByDate_sorted (l : List SampleRec) : List.Pairwise dateLe (sortByDate l) :=
  List.sorted_insertionSort dateLe l

theorem wayback_verdict_core_supports_cons (domain earliest : String) (srt : List SampleRec)
    (first : SampleRec) (rest : List SampleRec)
    (hm : srt.filter (fun r => r.matched) = first :: rest) :
    (wayback_verdict_core domain earliest srt).supports_eligibility
      = if wayback_continuity first srt ≥ 3/5 then some true else none := by
  unfold wayback_verdict_core
  rw [hm]

theorem wayback_verdict_core_not_false (domain earliest : String) (srt : List SampleRec) :
    (wayback_verdict_core domain earliest srt).supports_eligibility ≠ some false := by
  unfold wayback_verdict_core
  cases hm : srt.filter (fun r => r.matched) with
  | nil => simp
  | cons f r =>
    show (if wayback_continuity f srt ≥ 3/5 then some true else none) ≠ some false
    split_ifs <;> simp

theorem wayback_identity_verdict_not_false (domain earliest : String) (l' : List SampleRec) :
    (wayback_identity_verdict domain earliest l').supports_eligibility ≠ some false := by
  unfold wayback_identity_verdict
  by_cases he : l'.isEmpty
  · rw [if_pos he]
    simp
  · rw [if_neg he]
    exact wayback_verdict_core_not_false _ _ _

/-- C5: when at least one sampled snapshot matches (the sorted, filtered
match list is `first :: rest`), the verdict's `supports_eligibility` is
`some true` iff the continuity ratio — matched samples dated at or after
the earliest match, over all samples dated at or after it, not over all
samples — is at least 0.6, and `none` otherwise; the denominator is
positive, `first` is genuinely the earliest matched sample, and the
field is never `some false`, on any input. -/
theorem c5_wayback_continuity_spec (domain earliest : String) (l : List SampleRec)
    (first : SampleRec) (rest : List SampleRec)
    (hm : (sortByDate l).filter (fun r => r.matched) = first :: rest) :
    (wayback_identity_verdict domain earliest l).supports_eligibility
      = (if ((l.countP (fun r => r.matched && decide (dateLe first r)) : ℚ)
            / (l.countP (fun r => decide (dateLe first r)) : ℚ)) ≥ 3/5
         then some true else none)
    ∧ 0 < l.countP (fun r => decide (dateLe first r))
    ∧ (∀ r ∈ l, r.matched = true → dateLe first r)
    ∧ (∀ l' : List SampleRec,
        (wayback_identity_verdict domain earliest l').supports_eligibility ≠ some false) := by
  have hperm := sortByDate_perm l
  have hfm : first ∈ sortByDate l := by
    have hmem : first ∈ (sortByDate l).filter (fun r => r.matched) := by
      rw [hm]
      exact List.mem_cons_self _ _
    exact List.mem_of_mem_filter hmem
  have hlne : l.isEmpty = false := by
    cases l with
    | nil => simp [sortByDate, List.insertionSort] at hm
    | cons a t => rfl
  have hmemf : first ∈ wayback_post_match first (sortByDate l) :=
    List.mem_filter.mpr ⟨hfm, by simp [dateLe]⟩
  have hpostne : (wayback_post_match first (sortByDate l)).isEmpty = false := by
    cases hpm : wayback_post_match first (sortByDate l) with
    | nil => rw [hpm] at hmemf; cases hmemf
    | cons a t => rfl
  have hden : (wayback_post_match first (sortByDate l)).length
      = l.countP (fun r => decide (dateLe first r)) := by
    unfold wayback_post_match
    rw [← List.countP_eq_length_filter]
    exact hperm.countP_eq _
  have hnum : ((wayback_post_match first (sortByDate l)).filter (fun r => r.matched)).length
      = l.countP (fun r => r.matched && decide (dateLe first r)) := by
    unfold wayback_post_match
    rw [List.filter_filter, ← List.countP_eq_length_filter]
    exact hperm.countP_eq _
  have hcont : wayback_continuity first (sortByDate l)
      = (l.countP (fun r => r.matched && decide (dateLe first r)) : ℚ)
        / (l.countP (fun r => decide (dateLe first r)) : ℚ) := by
    unfold wayback_continuity
    rw [hpostne]
    simp only [Bool.false_eq_true, if_false]
    rw [hnum, hden]
  have hvc : (wayback_identity_verdict domain earliest l).supports_eligibility
      = if wayback_continuity first (sortByDate l) ≥ 3/5 then some true else none := by
    unfold wayback_identity_verdict
    rw [if_neg (by simp [hlne])]
    exact wayback_verdict_core_supports_cons domain earliest _ first rest hm
  refine ⟨?_, ?_, ?_, fun l' => wayback_identity_verdict_not_false domain earliest l'⟩
  · rw [hvc, hcont]
  · exact List.countP_pos_iff.mpr ⟨first, hperm.mem_iff.mp hfm, by simp [dateLe]⟩
  · intro r hr hmr
    have hr_srt : r ∈ sortByDate l := hperm.mem_iff.mpr hr
    have hr_m : r ∈ (sortByDate l).filter (fun x => x.matched) :=
      List.mem_filter.mpr ⟨hr_srt, hmr⟩
    rw [hm] at hr_m
    rcases List.mem_cons.mp hr_m with h | h
    · rw [h]
      exact le_refl first.date.toList
    · have hpw : List.Pairwise dateLe ((sortByDate l).filter (fun x => x.matched)) :=
        (sortByDate_sorted l).filter (fun x => x.matched)
      rw [hm] at hpw
      exact List.rel_of_pairwise_cons hpw h

/-- C5 witness: three sampled snapshots, two of which match, applied to
the continuity theorem. -/
theorem c5_wayback_continuity_witness :
    0 < List.countP (fun r => decide (dateLe ⟨"2001-01-01", "u1", 1, false, true⟩ r))
        [⟨"2001-01-01", "u1", 1, false, true⟩,
         ⟨"2003-01-01", "u2", 0, false, false⟩,
         ⟨"2005-01-01", "u3", 1, false, true⟩]
      ∧ (wayback_identity_verdict "x.com" "2001-01-01"
          [⟨"2001-01-01", "u1", 1, false, true⟩,
           ⟨"2003-01-01", "u2", 0, false, false⟩,
           ⟨"2005-01-01", "u3", 1, false, true⟩]).supports_eligibility ≠ some false :=
  ⟨(c5_wayback_continuity_spec "x.com" "2001-01-01"
      [⟨"2001-01-01", "u1", 1, false, true⟩,
       ⟨"2003-01-01", "u2", 0, false, false⟩,
       ⟨"2005-01-01", "u3", 1, false, true⟩]
      ⟨"2001-01-01", "u1", 1, false, true⟩
      [⟨"2005-01-01", "u3", 1, false, true⟩] (by decide)).2.1,
   (c5_wayback_continuity_spec "x.com" "2001-01-01"
      [⟨"2001-01-01", "u1", 1, false, true⟩,
       ⟨"2003-01-01", "u2", 0, false, false⟩,
       ⟨"2005-01-01", "u3", 1, false, true⟩]
      ⟨"2001-01-01", "u1", 1, false, true⟩
      [⟨"2005-01-01", "u3", 1, false, true⟩] (by decide)).2.2.2
     [⟨"2001-01-01", "u1", 1, false, true⟩,
      ⟨"2003-01-01", "u2", 0, false, false⟩,
      ⟨"2005-01-01", "u3", 1, false, true⟩]⟩

/-! ### Supporting lemmas: the resilient fetcher -/

/-- Header set of an attempt event, `none` for sleeps. -/
def attemptHeaders : FetchEvent → Option HttpHeaders
  | .attempt h => some h
  | .sleep _ => none

theorem cbw_go_schedule (resp : Nat → HttpOutcome) (url : String) :
    ∀ (remaining a : Nat) (le : Option String),
      ∃ m, m ≤ remaining
        ∧ (cbw_go resp url remaining a le).2.filterMap attemptHeaders
          = (List.range' a m).map headersFor := by
  intro remaining
  induction remaining with
  | zero =>
    intro a le
    exact ⟨0, le_refl 0, rfl⟩
  | succ r ih =>
    intro a le
    cases hr : resp a with
    | status code body =>
      by_cases hret : code ∈ _RETRYABLE_STATUS
      · obtain ⟨m, hm, heq⟩ := ih (a + 1) (some s!"HTTP {code}")
        refine ⟨m + 1, by omega, ?_⟩
        simp [cbw_go, hr, hret, attemptHeaders, heq, List.range'_succ]
      · by_cases h403 : code = 403 ∧ a = 0
        · obtain ⟨hc, ha⟩ := h403
          subst hc
          subst ha
          obtain ⟨m, hm, heq⟩ := ih 1 (some "HTTP 403 Forbidden")
          refine ⟨m + 1, by omega, ?_⟩
          simp [cbw_go, hr, hret, attemptHeaders, heq, List.range'_succ]
        · by_cases h400 : 400 ≤ code
          · refine ⟨1, by omega, ?_⟩
            simp [cbw_go, hr, hret, h403, h400, attemptHeaders, List.range']
          · by_cases hlen : (_extract_text body 4000).length < 50
            · refine ⟨1, by omega, ?_⟩
              simp [cbw_go, hr, hret, h403, h400, hlen, attemptHeaders, List.range']
            · refine ⟨1, by omega, ?_⟩
              simp [cbw_go, hr, hret, h403, h400, hlen, attemptHeaders, List.range']
    | connErr m0 =>
      obtain ⟨m, hm, heq⟩ := ih (a + 1) (some m0)
      refine ⟨m + 1, by omega, ?_⟩
      simp [cbw_go, hr, attemptHeaders, heq, List.range'_succ]
    | exc m0 =>
      refine ⟨1, by omega, ?_⟩
      simp [cbw_go, hr, attemptHeaders, List.range']

/-- C8: for every non-empty URL the fetch loop makes at most 3 attempts,
using the primary header set on attempts 0 and 1 and the alternate set
on attempt 2; a retryable status {429,500,502,503,504} sleeps
1.5 × (attemptIndex+1) seconds and retries; a 403 on any attempt after
the first is terminal; and the mock endpoint that always returns 403
yields an error Finding after exactly 2 attempts. -/
theorem c8_check_business_website_spec :
    (∀ (resp : Nat → HttpOutcome) (url : String) (sc : SettlementCtx), url ≠ "" →
      ∃ m, m ≤ 3
        ∧ (check_business_website url sc resp).2.filterMap attemptHeaders
          = (List.range' 0 m).map headersFor)
    ∧ (headersFor 0 = _HEADERS ∧ headersFor 1 = _HEADERS ∧ headersFor 2 = _ALT_HEADERS)
    ∧ (∀ (resp : Nat → HttpOutcome) (url : String) (r a : Nat) (le : Option String)
        (code : Nat) (body : String),
        resp a = .status code body → code ∈ _RETRYABLE_STATUS →
        cbw_go resp url (r + 1) a le
          = ((cbw_go resp url r (a + 1) (some s!"HTTP {code}")).1,
             .attempt (headersFor a) :: .sleep (3/2 * ((a : ℚ) + 1))
               :: (cbw_go resp url r (a + 1) (some s!"HTTP {code}")).2))
    ∧ (∀ (resp : Nat → HttpOutcome) (url : String) (r a : Nat) (le : Option String)
        (body : String),
        resp a = .status 403 body → a ≠ 0 →
        cbw_go resp url (r + 1) a le
          = (cbwFailFinding url (some (statusErrStr 403)), [.attempt (headersFor a)]))
    ∧ (check_business_website "http://blocked.example" {} (fun _ => .status 403 "")
        = (cbwFailFinding "http://blocked.example" (some (statusErrStr 403)),
           [.attempt _HEADERS, .sleep 1, .attempt _HEADERS])
       ∧ (check_business_website "http://blocked.example" {}
            (fun _ => .status 403 "")).1.is_error = true
       ∧ ((check_business_website "http://blocked.example" {}
            (fun _ => .status 403 "")).2.filterMap attemptHeaders).length = 2) := by
  refine ⟨?_, ⟨rfl, rfl, rfl⟩, ?_, ?_, by decide, by decide, by decide⟩
  · intro resp url sc hurl
    unfold check_business_website
    rw [if_neg hurl]
    exact cbw_go_schedule resp url 3 0 none
  · intro resp url r a le code body hresp hret
    simp [cbw_go, hresp, hret]
  · intro resp url r a le body hresp ha
    have hnr : (403 : ℕ) ∉ _RETRYABLE_STATUS := by decide
    have h400 : (400 : ℕ) ≤ 403 := by norm_num
    simp [cbw_go, hresp, hnr, ha, h400]

/-- C8 witness: the schedule bound applied to a concrete endpoint that
returns 200 immediately, and the retryable-status step at attempt 0 of a
concrete 503 endpoint. -/
theorem c8_check_business_website_witness :
    (∃ m, m ≤ 3
      ∧ (check_business_website "http://ok.example" {}
          (fun _ => .status 200 "x")).2.filterMap attemptHeaders
        = (List.range' 0 m).map headersFor)
    ∧ cbw_go (fun _ => .status 503 "") "http://r.example" 3 0 none
        = ((cbw_go (fun _ => .status 503 "") "http://r.example" 2 1 (some s!"HTTP {503}")).1,
           .attempt (headersFor 0) :: .sleep (3/2 * ((0 : ℚ) + 1))
             :: (cbw_go (fun _ => .status 503 "") "http://r.example" 2 1
                  (some s!"HTTP {503}")).2) :=
  ⟨c8_check_business_website_spec.1 (fun _ => .status 200 "x") "http://ok.example" {}
      (by decide),
   c8_check_business_website_spec.2.2.1 (fun _ => .status 503 "") "http://r.example" 2 0 none
      503 "" rfl (by decide)⟩

/-! ### Supporting lemmas: probe error absorption -/

theorem ddg_result (env : DdgEnv) (q : String) (k att : Nat) :
    (env.available = true
      ∧ _ddg_search_with_retry env q k att = .ok (ddgAttemptLoop env q k att 0))
    ∨ (env.available = false
      ∧ _ddg_search_with_retry env q k att
        = .error (.importError "No module named duckduckgo_search")) := by
  cases h : env.available with
  | true => exact Or.inl ⟨rfl, by simp [_ddg_search_with_retry, h]⟩
  | false => exact Or.inr ⟨rfl, by simp [_ddg_search_with_retry, h]⟩

theorem ddg_foldlM_error (env : DdgEnv) (qs : List String) (acc : List String) (e : PyErr)
    (h : qs.foldlM (fun acc q => do
        let hits ← _ddg_search_with_retry env q 3 2
        pure (acc ++ hits.map fmtHit)) acc = .error e) :
    e = .importError "No module named duckduckgo_search" := by
  induction qs generalizing acc with
  | nil => exact Except.noConfusion h
  | cons q t ih =>
    rw [List.foldlM_cons] at h
    rcases ddg_result env q 3 2 with ⟨_, hd⟩ | ⟨_, hd⟩
    · rw [hd] at h
      exact ih _ h
    · rw [hd] at h
      injection h with h2
      exact h2.symm

theorem except_isOk_exists {e : Except PyErr SubAgentFinding} (h : e.isOk = true) :
    ∃ f, e = .ok f := by
  cases e with
  | ok a => exact ⟨a, rfl⟩
  | error x => simp [Except.isOk, Except.toBool] at h

theorem search_platform_presence_isOk (env : DdgEnv) (business_name city : String)
    (sc : SettlementCtx) :
    ∃ f, search_platform_presence env business_name city sc = .ok f := by
  apply except_isOk_exists
  unfold search_platform_presence
  cases h : spp_try env (plat_queries business_name city sc) with
  | error e =>
    have he : e = .importError "No module named duckduckgo_search" :=
      ddg_foldlM_error env _ [] e (by simpa [spp_try] using h)
    subst he
    rfl
  | ok rt =>
    cases hrt : rt.isEmpty <;> simp [hrt, Except.isOk, Except.toBool]

theorem search_general_context_isOk (env : DdgEnv) (business_name city state : String) :
    ∃ f, search_general_context env business_name city state = .ok f := by
  apply except_isOk_exists
  unfold search_general_context
  cases hd : _ddg_search_with_retry env s!"\"{business_name}\" {city} {state}" 5 2 with
  | error e => cases e <;> rfl
  | ok hits => cases hrt : hits.isEmpty <;> simp [hrt, Except.isOk, Except.toBool]

theorem check_review_presence_isOk (env : DdgEnv) (business_name city state : String) :
    ∃ f, check_review_presence env business_name city state = .ok f := by
  apply except_isOk_exists
  unfold check_review_presence
  cases hd : _ddg_search_with_retry env
      s!"\"{business_name}\" {city} {state} yelp OR reviews OR \"google reviews\"" 4 2 with
  | error e => cases e <;> rfl
  | ok hits => cases hrt : hits.isEmpty <;> simp [hrt, Except.isOk, Except.toBool]

theorem check_wayback_history_isOk (business_name city url : String) (env : WbEnv) :
    ∃ f, check_wayback_history business_name city url env = .ok f := by
  unfold check_wayback_history
  by_cases hu : url = ""
  · rw [if_pos hu]
    exact ⟨_, rfl⟩
  · rw [if_neg hu]
    by_cases hd : _domain_from_website url = ""
    · rw [if_pos hd]
      exact ⟨_, rfl⟩
    · rw [if_neg hd]
      cases hb : wb_body business_name city (_domain_from_website url) env with
      | ok f => exact ⟨f, rfl⟩
      | error e => exact ⟨_, rfl⟩

theorem cbw_go_source (resp : Nat → HttpOutcome) (url : String) :
    ∀ (r a : Nat) (le : Option String), (cbw_go resp url r a le).1.source = "business_website" := by
  intro r
  induction r with
  | zero =>
    intro a le
    rfl
  | succ r ih =>
    intro a le
    cases hr : resp a with
    | status code body =>
      by_cases hret : code ∈ _RETRYABLE_STATUS
      · simp [cbw_go, hr, hret, ih]
      · by_cases h403 : code = 403 ∧ a = 0
        · obtain ⟨hc, ha⟩ := h403
          subst hc
          subst ha
          simp [cbw_go, hr, hret, ih]
        · by_cases h400 : 400 ≤ code
          · simp [cbw_go, hr, hret, h403, h400, cbwFailFinding]
          · by_cases hlen : (_extract_text body 4000).length < 50
            · simp [cbw_go, hr, hret, h403, h400, hlen]
            · simp [cbw_go, hr, hret, h403, h400, hlen]
    | connErr m0 => simp [cbw_go, hr, ih]
    | exc m0 => simp [cbw_go, hr, cbwFailFinding]

theorem check_business_website_source (url : String) (sc : SettlementCtx)
    (resp : Nat → HttpOutcome) :
    (check_business_website url sc resp).1.source = "business_website" := by
  unfold check_business_website
  by_cases hu : url = ""
  · rw [if_pos hu]
  · rw [if_neg hu]
    exact cbw_go_source resp url 3 0 none

/-- C9: each probe absorbs every failure of its underlying operations
into a returned Finding: the three search probes and the archive probe
return `.ok` of a Finding for every environment, the website fetcher is
a total function whose Finding always carries its probe source, and only
the invalid-concurrency programmer error propagates out of the fan-out
executors. -/
theorem c9_probes_never_raise :
    (∀ (env : DdgEnv) (bn city : String) (sc : SettlementCtx),
      ∃ f, search_platform_presence env bn city sc = .ok f)
    ∧ (∀ (env : DdgEnv) (bn city st : String),
      ∃ f, search_general_context env bn city st = .ok f)
    ∧ (∀ (env : DdgEnv) (bn city st : String),
      ∃ f, check_review_presence env bn city st = .ok f)
    ∧ (∀ (bn city url : String) (env : WbEnv),
      ∃ f, check_wayback_history bn city url env = .ok f)
    ∧ (∀ (url : String) (sc : SettlementCtx) (resp : Nat → HttpOutcome),
      (check_business_website url sc resp).1.source = "business_website")
    ∧ (∀ (α : Type) (aws : List (Except PyErr (Option α))) (order : List ℕ) (c : Int),
      c < 1 → gather_with_limit aws order c = .error (.valueError "concurrency must be >= 1"))
    ∧ (∀ (α β : Type) (items : List β) (worker : β → Except PyErr (Option α))
        (order : List ℕ) (c : Int) (d : ℚ),
      c < 1 → map_with_limit items worker order c d
        = .error (.valueError "concurrency must be >= 1")) := by
  refine ⟨search_platform_presence_isOk, search_general_context_isOk,
    check_review_presence_isOk, check_wayback_history_isOk, check_business_website_source,
    ?_, ?_⟩
  · intro α aws order c hc
    unfold gather_with_limit
    rw [if_pos hc]
  · intro α β items worker order c d hc
    unfold map_with_limit
    rw [if_pos hc]

/-- C9 witness: both fan-out variants reject concurrency 0 with the
invalid-argument error. -/
theorem c9_probes_never_raise_witness :
    gather_with_limit ([] : List (Except PyErr (Option Nat))) [] 0
        = .error (.valueError "concurrency must be >= 1")
      ∧ map_with_limit ([] : List Nat) (fun n => .ok (some n)) [] 0 0
        = .error (.valueError "concurrency must be >= 1") :=
  ⟨c9_probes_never_raise.2.2.2.2.2.1 Nat [] [] 0 (by decide),
   c9_probes_never_raise.2.2.2.2.2.2 Nat Nat [] (fun n => .ok (some n)) [] 0 0 (by decide)⟩

/-- C10: when the search library's import fails, `search_general_context`
and `check_review_presence` report it with `is_error = true` and a
populated `error_detail`, whereas `search_platform_presence` reports it
as a plain Finding with `is_error = false` and no `error_detail`. -/
theorem c10_import_unavailable_reporting (env : DdgEnv) (bn city st : String)
    (sc : SettlementCtx) (h : env.available = false) :
    search_platform_presence env bn city sc
      = .ok { source := "platform_search",
              finding := "duckduckgo-search package not available",
              supports_eligibility := none }
    ∧ search_general_context env bn city st
      = .ok { source := "general_search", finding := "Search package not available",
              supports_eligibility := none, is_error := true,
              error_detail := some "duckduckgo-search package not installed" }
    ∧ check_review_presence env bn city st
      = .ok { source := "review_search", finding := "Search package not available",
              supports_eligibility := none, is_error := true,
              error_detail := some "duckduckgo-search package not installed" }
    ∧ (∀ f, search_platform_presence env bn city sc = .ok f →
        f.is_error = false ∧ f.error_detail = none) := by
  have hddg : ∀ (q : String) (k att : Nat), _ddg_search_with_retry env q k att
      = .error (.importError "No module named duckduckgo_search") := by
    intro q k att
    simp [_ddg_search_with_retry, h]
  have hqs : ∃ q qs, (plat_queries bn city sc).take 2 = q :: qs := by
    unfold plat_queries
    split_ifs <;> exact ⟨_, _, rfl⟩
  obtain ⟨q, qs, hq⟩ := hqs
  have hspp : spp_try env (plat_queries bn city sc)
      = .error (.importError "No module named duckduckgo_search") := by
    unfold spp_try
    rw [hq, List.foldlM_cons, hddg]
    rfl
  refine ⟨?_, ?_, ?_, ?_⟩
  · unfold search_platform_presence
    rw [hspp]
  · unfold search_general_context
    rw [hddg]
  · unfold check_review_presence
    rw [hddg]
  · intro f hf
    unfold search_platform_presence at hf
    rw [hspp] at hf
    injection hf with h2
    rw [← h2]
    exact ⟨rfl, rfl⟩

/-- C10 witness: a concrete environment with the library unavailable. -/
theorem c10_import_unavailable_witness :
    search_platform_presence ⟨false, fun _ _ _ => .ok []⟩ "Biz" "Wooster" {}
      = .ok { source := "platform_search",
              finding := "duckduckgo-search package not available",
              supports_eligibility := none }
    ∧ search_general_context ⟨false, fun _ _ _ => .ok []⟩ "Biz" "Wooster" "OH"
      = .ok { source := "general_search", finding := "Search package not available",
              supports_eligibility := none, is_error := true,
              error_detail := some "duckduckgo-search package not installed" } :=
  ⟨(c10_import_unavailable_reporting ⟨false, fun _ _ _ => .ok []⟩ "Biz" "Wooster" "OH" {}
      rfl).1,
   (c10_import_unavailable_reporting ⟨false, fun _ _ _ => .ok []⟩ "Biz" "Wooster" "OH" {}
      rfl).2.1⟩

/-! ### Supporting lemmas: probe source attribution -/

theorem wayback_identity_verdict_source (d e : String) (l : List SampleRec) :
    (wayback_identity_verdict d e l).source = "wayback_archive" := by
  unfold wayback_identity_verdict
  by_cases he : l.isEmpty = true
  · rw [if_pos he]
  · rw [if_neg he]
    unfold wayback_verdict_core
    cases hm : (sortByDate l).filter (fun r => r.matched) with
    | nil => rfl
    | cons f r => rfl

theorem wb_rows_branch_source (bn city domain : String) (env : WbEnv)
    (pl : List (Option (List String))) (g : SubAgentFinding)
    (h : wb_rows_branch bn city domain env pl = .ok g) : g.source = "wayback_archive" := by
  unfold wb_rows_branch at h
  by_cases hl : pl.length ≤ 1
  · rw [if_pos hl] at h
    injection h with h2
    rw [← h2]
    rfl
  · rw [if_neg hl] at h
    cases hr : (((pl.drop 1).filterMap id).filter
        (fun r => decide (2 ≤ r.length))).insertionSort
        (fun a b => (rowKey a).toList ≤ (rowKey b).toList) with
    | nil => rw [hr] at h; exact Except.noConfusion h
    | cons r0 rest =>
      rw [hr] at h
      injection h with h2
      rw [← h2]
      exact wayback_identity_verdict_source _ _ _

theorem wb_body_source (bn city domain : String) (env : WbEnv) (g : SubAgentFinding) :
    wb_body bn city domain env = .ok g → g.source = "wayback_archive" := by
  unfold wb_body
  cases hc : env.cdx with
  | error e => intro h; exact Except.noConfusion h
  | ok payload =>
    cases payload with
    | none =>
      intro h
      injection h with h2
      rw [← h2]
      rfl
    | some pl => exact wb_rows_branch_source bn city domain env pl g

theorem check_wayback_history_source (bn city url : String) (env : WbEnv)
    (f : SubAgentFinding) :
    check_wayback_history bn city url env = .ok f → f.source = "wayback_archive" := by
  unfold check_wayback_history
  by_cases hu : url = ""
  · rw [if_pos hu]
    intro h
    injection h with h2
    rw [← h2]
  · rw [if_neg hu]
    by_cases hd : _domain_from_website url = ""
    · rw [if_pos hd]
      intro h
      injection h with h2
      rw [← h2]
    · rw [if_neg hd]
      cases hb : wb_body bn city (_domain_from_website url) env with
      | ok g =>
        intro h
        injection h with h2
        rw [← h2]
        exact wb_body_source bn city _ env g hb
      | error e =>
        intro h
        injection h with h2
        rw [← h2]

theorem search_platform_presence_source (env : DdgEnv) (bn city : String)
    (sc : SettlementCtx) (f : SubAgentFinding) :
    search_platform_presence env bn city sc = .ok f → f.source = "platform_search" := by
  unfold search_platform_presence
  cases h : spp_try env (plat_queries bn city sc) with
  | error e =>
    cases e with
    | importError m => intro hf; injection hf with h2; rw [← h2]
    | valueError m => intro hf; exact Except.noConfusion hf
    | statusError c m => intro hf; exact Except.noConfusion hf
    | other m => intro hf; exact Except.noConfusion hf
  | ok rt =>
    simp only []
    by_cases hrt : rt.isEmpty = true
    · rw [if_pos hrt]
      intro hf
      injection hf with h2
      rw [← h2]
    · rw [if_neg hrt]
      intro hf
      injection hf with h2
      rw [← h2]

theorem search_general_context_source (env : DdgEnv) (bn city st : String)
    (f : SubAgentFinding) :
    search_general_context env bn city st = .ok f → f.source = "general_search" := by
  unfold search_general_context
  cases h : _ddg_search_with_retry env s!"\"{bn}\" {city} {st}" 5 2 with
  | error e => cases e <;> (intro hf; injection hf with h2; rw [← h2])
  | ok hits =>
    simp only []
    by_cases hrt : hits.isEmpty = true
    · rw [if_pos hrt]
      intro hf
      injection hf with h2
      rw [← h2]
    · rw [if_neg hrt]
      intro hf
      injection hf with h2
      rw [← h2]

theorem check_review_presence_source (env : DdgEnv) (bn city st : String)
    (f : SubAgentFinding) :
    check_review_presence env bn city st = .ok f → f.source = "review_search" := by
  unfold check_review_presence
  cases h : _ddg_search_with_retry env
      s!"\"{bn}\" {city} {st} yelp OR reviews OR \"google reviews\"" 4 2 with
  | error e => cases e <;> (intro hf; injection hf with h2; rw [← h2])
  | ok hits =>
    simp only []
    by_cases hrt : hits.isEmpty = true
    · rw [if_pos hrt]
      intro hf
      injection hf with h2
      rw [← h2]
    · rw [if_neg hrt]
      intro hf
      injection hf with h2
      rw [← h2]

/-- C4: the `VerificationResult` schema declares no range constraint on
`confidence`, so `ainvoke_pydantic` accepts a reasoning reply with
confidence 150 unchanged — outside [0,100], contradicting the documented
0-100 range.  (The orchestrator fallback's confidence 0 is in range.) -/
theorem c4_confidence_not_range_checked :
    ainvoke_pydantic (.ok [("verdict", .str "likely"), ("confidence", .int 150),
        ("is_chain", .bool false), ("chain_reason", .null), ("reasoning", .str "r")])
      = .ok { verdict := "likely", confidence := 150, is_chain := false,
              chain_reason := none, evidence := [], reasoning := "r",
              checks_performed := [] }
    ∧ ¬((150 : Int) ≤ 100) :=
  ⟨rfl, by decide⟩

/-- C2: every pipeline exception is converted at the orchestrator
boundary: whenever the try-body fails with error e, `verify_candidate`
returns the fallback result — verdict "unlikely", confidence 0, empty
evidence, reasoning embedding the error, `checks_performed` still the
four probe names; when the body succeeds its value is returned
unchanged.  `verify_candidate`'s type carries no `Except`: it never
raises to its caller. -/
theorem c2_verify_candidate_fallback (business : Business) (settlement : Settlement)
    (env : AgentEnv) :
    (∀ e : PyErr, verify_body business settlement env = .error e →
      verify_candidate business settlement env
        = { verdict := "unlikely", confidence := 0, is_chain := false, chain_reason := none,
            evidence := [], reasoning := "Verification failed: " ++ e.str,
            checks_performed := ["business_website", "platform_search", "general_search",
              "review_search"] })
    ∧ (∀ r, verify_body business settlement env = .ok r →
        verify_candidate business settlement env = r) := by
  constructor
  · intro e he
    unfold verify_candidate
    rw [he]
    rfl
  · intro r hr
    unfold verify_candidate
    rw [hr]

/-- C2 witness: a reasoning collaborator that always fails produces the
fallback result for a concrete candidate. -/
theorem c2_verify_candidate_fallback_witness :
    verify_candidate { name := "A", city := "W" } {}
        ⟨fun _ => .status 200 "", ⟨false, fun _ _ _ => .ok []⟩,
         fun _ => .error (.other "boom"), [0, 1, 2, 3]⟩
      = { verdict := "unlikely", confidence := 0, is_chain := false, chain_reason := none,
          evidence := [], reasoning := "Verification failed: boom",
          checks_performed := ["business_website", "platform_search", "general_search",
            "review_search"] } :=
  (c2_verify_candidate_fallback { name := "A", city := "W" } {}
      ⟨fun _ => .status 200 "", ⟨false, fun _ _ _ => .ok []⟩,
       fun _ => .error (.other "boom"), [0, 1, 2, 3]⟩).1
    (.other "boom") rfl

/-- C3 (amended): the per-candidate fan-out comprises exactly the four
probes — website fetch, platform search, general search, review search:
the task list has length 4 and every Finding it can produce carries one
of those four sources, never "wayback_archive".  The Archive Identity
Matcher is defined but not invoked by the orchestrator; every Finding it
returns carries source "wayback_archive", which therefore never appears
among the fan-out's findings. -/
theorem c3_fanout_probes (business : Business) (settlement : Settlement) (env : AgentEnv) :
    (verify_tasks business settlement env).length = 4
    ∧ (∀ f : SubAgentFinding, Except.ok (some f) ∈ verify_tasks business settlement env →
        f.source ∈ (["business_website", "platform_search", "general_search",
            "review_search"] : List String) ∧ f.source ≠ "wayback_archive")
    ∧ (∀ (bn city url : String) (wenv : WbEnv) (f : SubAgentFinding),
        check_wayback_history bn city url wenv = .ok f → f.source = "wayback_archive") := by
  refine ⟨rfl, ?_, check_wayback_history_source⟩
  intro f hf
  simp only [verify_tasks, List.mem_cons, List.not_mem_nil, or_false] at hf
  have hsrc : f.source = "business_website" ∨ f.source = "platform_search"
      ∨ f.source = "general_search" ∨ f.source = "review_search" := by
    rcases hf with h | h | h | h
    · injection h with h2
      injection h2 with h3
      rw [h3]
      exact Or.inl (check_business_website_source _ _ _)
    · rcases search_platform_presence_isOk env.ddg business.name business.city
          { settlement_name := settlement.settlement_name, defendant := settlement.defendant,
            eligible_actions := settlement.eligible_actions,
            platform_keywords := settlement.eligible_actions } with ⟨g, hg⟩
      rw [hg] at h
      have h2 : (Except.ok (some f) : Except PyErr (Option SubAgentFinding))
          = .ok (some g) := h
      injection h2 with h3
      injection h3 with h4
      rw [h4]
      exact Or.inr (Or.inl (search_platform_presence_source _ _ _ _ g hg))
    · rcases search_general_context_isOk env.ddg business.name business.city "OH"
        with ⟨g, hg⟩
      rw [hg] at h
      have h2 : (Except.ok (some f) : Except PyErr (Option SubAgentFinding))
          = .ok (some g) := h
      injection h2 with h3
      injection h3 with h4
      rw [h4]
      exact Or.inr (Or.inr (Or.inl (search_general_context_source _ _ _ _ g hg)))
    · rcases check_review_presence_isOk env.ddg business.name business.city "OH"
        with ⟨g, hg⟩
      rw [hg] at h
      have h2 : (Except.ok (some f) : Except PyErr (Option SubAgentFinding))
          = .ok (some g) := h
      injection h2 with h3
      injection h3 with h4
      rw [h4]
      exact Or.inr (Or.inr (Or.inr (check_review_presence_source _ _ _ _ g hg)))
  refine ⟨?_, ?_⟩ <;> rcases hsrc with h | h | h | h <;> rw [h] <;> decide

/-- C3 witness: for a concrete candidate and environment, the collected
evidence consists of the four probe findings in the fixed order. -/
theorem c3_fanout_probes_witness :
    (verify_tasks { name := "A", city := "W" } {}
        ⟨fun _ => .status 200 "", ⟨false, fun _ _ _ => .ok []⟩,
         fun _ => .ok [("verdict", .str "likely")], [0, 1, 2, 3]⟩).length = 4
      ∧ ((verify_tasks { name := "A", city := "W" } {}
          ⟨fun _ => .status 200 "", ⟨false, fun _ _ _ => .ok []⟩,
           fun _ => .ok [("verdict", .str "likely")], [0, 1, 2, 3]⟩).all
            (fun t => match t with
              | .ok (some f) => decide (f.source ≠ "wayback_archive")
              | _ => true)) = true := by
  constructor
  · exact (c3_fanout_probes { name := "A", city := "W" } {}
      ⟨fun _ => .status 200 "", ⟨false, fun _ _ _ => .ok []⟩,
       fun _ => .ok [("verdict", .str "likely")], [0, 1, 2, 3]⟩).1
  · decide

/-- C3 counterexample: the evidence collected by `verify_candidate` for
a concrete candidate contains the four probe findings and no Finding
from the Archive Identity Matcher — no source is "wayback_archive",
while every `check_wayback_history` Finding carries that source. -/
theorem c3_counterexample :
    ((verify_candidate { name := "A", city := "W" } {}
        ⟨fun _ => .status 200 "", ⟨false, fun _ _ _ => .ok []⟩,
         fun _ => .ok [("verdict", .str "likely"), ("confidence", .int 70),
           ("is_chain", .bool false), ("reasoning", .str "ok")],
         [0, 1, 2, 3]⟩).evidence.map (fun f => f.source))
      = ["business_website", "platform_search", "general_search", "review_search"]
    ∧ "wayback_archive" ∉
        ((verify_candidate { name := "A", city := "W" } {}
          ⟨fun _ => .status 200 "", ⟨false, fun _ _ _ => .ok []⟩,
           fun _ => .ok [("verdict", .str "likely"), ("confidence", .int 70),
             ("is_chain", .bool false), ("reasoning", .str "ok")],
           [0, 1, 2, 3]⟩).evidence.map (fun f => f.source)) := by
  constructor
  · rfl
  · decide
